import Mathlib

/-! # lifemate_backend: the job-seeker profile record and the transactional e-mail composer

A shallow embedding of `src/models/JobSeeker.js` (the Mongoose schema of a job-seeker
profile, its two date validators, `calculateProfileCompletion` and the `pre('save')` hook) and
of `src/services/emailService.js` (the mail options built by the five e-mail senders, and what
each sender submits to the transport and returns).

JavaScript values are modelled as follows.

* A schema path of type `T` holds `undefined`, `null` or a value cast to `T`: the type `Js T`.
* A `Number` is a rational (`NaN` is refused by the schema cast); the modelled code never does
  arithmetic on a stored number: it compares `experience.totalYears` with `undefined`, and the
  `min` and `max` options of the schema compare a number with a bound.
* A `Date` is its time value, an integer count of milliseconds since the epoch (an invalid date
  is refused by the schema cast).
* A value whose type is not declared in this repository's sources is a `JsVal`.
* The identity collaborator, which resolves the object id of the `user` path to the user, is a
  parameter `Identity`; the code of the model never calls it.
-/

namespace LifeMate

/-! ## JavaScript values -/

/-- A schema path of type `α`: it holds `undefined`, `null`, or a value cast to `α`. -/
inductive Js (α : Type) where
  | undefined : Js α
  | null : Js α
  | val (a : α) : Js α
  deriving DecidableEq, Repr

/-- An untyped JavaScript value, as far as truthiness and string conversion tell values apart. -/
inductive JsVal where
  | undefined : JsVal
  | null : JsVal
  | bool (b : Bool) : JsVal
  | nan : JsVal
  | num (q : ℚ) : JsVal
  | str (s : String) : JsVal
  | obj : JsVal
  deriving DecidableEq

/-- `ToBoolean` on an untyped value. -/
def JsVal.truthy : JsVal → Bool
  | .undefined => false
  | .null => false
  | .bool b => b
  | .nan => false
  | .num q => decide (q ≠ 0)
  | .str s => decide (s ≠ "")
  | .obj => true

/-- `ToBoolean` on a `String` path: only a non-empty string is truthy. -/
def Js.truthyStr : Js String → Bool
  | .val s => decide (s ≠ "")
  | _ => false

/-- `ToBoolean` on a path holding an object (an array, a nested document, a `Date`): every
object is truthy, `undefined` and `null` are not. -/
def Js.truthyObj {α : Type} : Js α → Bool
  | .val _ => true
  | _ => false

/-- The strict comparison `x !== undefined`. -/
def Js.neUndefined {α : Type} : Js α → Bool
  | .undefined => false
  | _ => true

/-- The result of `x && x.length > 0` on an array path, as a condition. -/
def Js.truthyAndNonEmpty {α : Type} (x : Js (List α)) : Bool :=
  x.truthyObj && (match x with
    | .val l => decide (l.length > 0)
    | _ => false)

/-! ## The schema of `src/models/JobSeeker.js` -/

/-- A Mongo object identifier. -/
abbrev ObjectId := String

/-- A `Date`, as its time value in milliseconds since the epoch. -/
abbrev Date := Int

/-- The populated `User` document, as far as this repository reads it (`firstName`,
`lastName`, `profileImage`); the `User` schema itself is not part of the sources. -/
structure User where
  firstName : JsVal
  lastName : JsVal
  profileImage : JsVal

/-- The `user` path: an object id, or the `User` document after `populate`. -/
inductive UserRef where
  | undefined : UserRef
  | null : UserRef
  | id (oid : ObjectId) : UserRef
  | populated (u : User) : UserRef

/-- Truthiness of `this.user`: an `ObjectId` and a populated document are both objects. -/
def UserRef.truthy : UserRef → Bool
  | .undefined => false
  | .null => false
  | .id _ => true
  | .populated _ => true

/-- The property read `this.user.profileImage` on a truthy `this.user`: an `ObjectId` has no
such property. -/
def UserRef.profileImage : UserRef → JsVal
  | .populated u => u.profileImage
  | _ => .undefined

/-- The nested path `experience`. -/
structure Experience where
  totalYears : Js ℚ
  currentPosition : Js String
  currentCompany : Js String
  isCurrentlyEmployed : Js Bool

/-- An entry of `education`. -/
structure Education where
  degree : Js String
  field : Js String
  institution : Js String
  yearOfCompletion : Js ℚ
  grade : Js String

/-- An entry of `workExperience`. -/
structure WorkExperience where
  position : Js String
  company : Js String
  location : Js String
  startDate : Js Date
  endDate : Js Date
  isCurrent : Js Bool
  description : Js String
  achievements : Js (List String)

/-- An entry of `skills`. -/
structure Skill where
  name : Js String
  level : Js String

/-- An entry of `certifications`. -/
structure Certification where
  name : Js String
  issuingOrganization : Js String
  issueDate : Js Date
  expiryDate : Js Date
  credentialId : Js String
  credentialUrl : Js String

/-- An entry of `jobPreferences.preferredLocations`. -/
structure PreferredLocation where
  city : Js String
  state : Js String
  country : Js String

/-- The nested path `jobPreferences.expectedSalary`. -/
structure ExpectedSalary where
  min : Js ℚ
  max : Js ℚ
  currency : Js String
  period : Js String

/-- The nested path `jobPreferences`. -/
structure JobPreferences where
  preferredLocations : Js (List PreferredLocation)
  preferredJobTypes : Js (List String)
  preferredShifts : Js (List String)
  expectedSalary : ExpectedSalary
  availability : Js String
  willingToRelocate : Js Bool
  remoteWorkPreference : Js String

/-- The shape shared by `resume` and `coverLetter`. -/
structure DocumentFile where
  url : Js String
  filename : Js String
  uploadedAt : Js Date
  publicId : Js String
  bytes : Js ℚ

/-- An entry of `portfolio`. -/
structure PortfolioItem where
  title : Js String
  description : Js String
  url : Js String
  type : Js String

/-- The nested path `privacySettings`. -/
structure PrivacySettings where
  showContactInfo : Js Bool
  showCurrentSalary : Js Bool
  showProfileToEmployers : Js Bool
  allowDirectMessages : Js Bool

/-- The nested path `stats`. -/
structure Stats where
  profileViews : Js ℚ
  applicationsSubmitted : Js ℚ
  interviewsScheduled : Js ℚ
  jobsOffered : Js ℚ

/-- A `JobSeeker` document. The nested paths `experience` and `jobPreferences`, which
`calculateProfileCompletion` dereferences without a guard, are always objects on a Mongoose
document; `resume`, which it guards, may also be `undefined` or `null` here. -/
structure JobSeeker where
  user : UserRef
  title : Js String
  bio : Js String
  specializations : Js (List String)
  experience : Experience
  education : Js (List Education)
  workExperience : Js (List WorkExperience)
  skills : Js (List Skill)
  certifications : Js (List Certification)
  jobPreferences : JobPreferences
  resume : Js DocumentFile
  coverLetter : Js DocumentFile
  portfolio : Js (List PortfolioItem)
  profileCompletion : Js ℚ
  privacySettings : PrivacySettings
  stats : Stats

/-- The document `new JobSeeker({ user: oid })`: every path at its schema default. -/
def JobSeeker.default (oid : ObjectId) : JobSeeker where
  user := .id oid
  title := .undefined
  bio := .undefined
  specializations := .val []
  experience :=
    { totalYears := .undefined, currentPosition := .undefined, currentCompany := .undefined,
      isCurrentlyEmployed := .val true }
  education := .val []
  workExperience := .val []
  skills := .val []
  certifications := .val []
  jobPreferences :=
    { preferredLocations := .val [], preferredJobTypes := .val [], preferredShifts := .val [],
      expectedSalary :=
        { min := .undefined, max := .undefined, currency := .val "INR", period := .val "Annual" },
      availability := .val "Negotiable", willingToRelocate := .val false,
      remoteWorkPreference := .val "No preference" }
  resume :=
    .val { url := .undefined, filename := .undefined, uploadedAt := .undefined,
           publicId := .undefined, bytes := .undefined }
  coverLetter :=
    .val { url := .undefined, filename := .undefined, uploadedAt := .undefined,
           publicId := .undefined, bytes := .undefined }
  portfolio := .val []
  profileCompletion := .val 0
  privacySettings :=
    { showContactInfo := .val true, showCurrentSalary := .val false,
      showProfileToEmployers := .val true, allowDirectMessages := .val true }
  stats :=
    { profileViews := .val 0, applicationsSubmitted := .val 0, interviewsScheduled := .val 0,
      jobsOffered := .val 0 }

/-! ## `calculateProfileCompletion` and the `pre('save')` hook -/

/-- The condition `this.resume && this.resume.url`. -/
def resumeUrlTruthy (resume : Js DocumentFile) : Bool :=
  resume.truthyObj && (match resume with
    | .val d => d.url.truthyStr
    | _ => false)

/-- The condition `this.user && this.user.profileImage`. -/
def userProfileImageTruthy (user : UserRef) : Bool :=
  user.truthy && user.profileImage.truthy

/-- The method `calculateProfileCompletion`: the ten `if (...) completion += 10` statements in
source order, then the assignment `this.profileCompletion = completion`. It yields the returned
number together with the document after the assignment. -/
def calculateProfileCompletion (this : JobSeeker) : Nat × JobSeeker :=
  let completion := 0
  let completion := if this.title.truthyStr then completion + 10 else completion
  let completion := if this.bio.truthyStr then completion + 10 else completion
  let completion := if this.specializations.truthyAndNonEmpty then completion + 10 else completion
  let completion := if this.experience.totalYears.neUndefined then completion + 10 else completion
  let completion := if this.education.truthyAndNonEmpty then completion + 10 else completion
  let completion := if this.workExperience.truthyAndNonEmpty then completion + 10 else completion
  let completion := if this.skills.truthyAndNonEmpty then completion + 10 else completion
  let completion :=
    if this.jobPreferences.preferredLocations.truthyAndNonEmpty then completion + 10
    else completion
  let completion := if resumeUrlTruthy this.resume then completion + 10 else completion
  let completion := if userProfileImageTruthy this.user then completion + 10 else completion
  (completion, { this with profileCompletion := .val (completion : ℚ) })

/-- The `pre('save')` hook: it calls `calculateProfileCompletion`, drops the returned number and
hands the document on. -/
def preSave (this : JobSeeker) : JobSeeker :=
  (calculateProfileCompletion this).2

/-! ## The completion checks, with check 10 read on the record -/

/-- A text path is non-empty: it holds a string of positive length. -/
def NonEmptyText (x : Js String) : Prop :=
  ∃ s : String, x = .val s ∧ 0 < s.length

/-- A sequence path has at least one entry. -/
def HasAtLeastOneEntry {α : Type} (x : Js (List α)) : Prop :=
  ∃ (a : α) (l : List α), x = .val (a :: l)

/-- A path is present in the sense "defined, including 0": it is not `undefined`. -/
def IsDefined {α : Type} (x : Js α) : Prop :=
  x ≠ .undefined

/-- The path `resume.url` is present: there is a resume and it holds a non-empty url. -/
def ResumeUrlPresent (resume : Js DocumentFile) : Prop :=
  ∃ d : DocumentFile, resume = .val d ∧ NonEmptyText d.url

/-- The `user` path of the record holds the loaded user document, and the `profileImage` of
that document is a truthy value. An object id that was not populated never satisfies this,
whatever the user it refers to. -/
def LoadedUserHasProfileImage (user : UserRef) : Prop :=
  ∃ u : User, user = .populated u ∧ u.profileImage.truthy = true

instance instDecidableNonEmptyText (x : Js String) : Decidable (NonEmptyText x) :=
  match x with
  | .undefined => isFalse (fun ⟨_, h, _⟩ => by cases h)
  | .null => isFalse (fun ⟨_, h, _⟩ => by cases h)
  | .val s =>
    if h : 0 < s.length then isTrue ⟨s, rfl, h⟩
    else isFalse (fun ⟨_, h1, h2⟩ => by cases h1; exact h h2)

instance instDecidableHasAtLeastOneEntry {α : Type} (x : Js (List α)) :
    Decidable (HasAtLeastOneEntry x) :=
  match x with
  | .undefined => isFalse (fun ⟨_, _, h⟩ => by cases h)
  | .null => isFalse (fun ⟨_, _, h⟩ => by cases h)
  | .val [] => isFalse (fun ⟨_, _, h⟩ => by cases h)
  | .val (a :: l) => isTrue ⟨a, l, rfl⟩

instance instDecidableIsDefined {α : Type} (x : Js α) : Decidable (IsDefined x) :=
  match x with
  | .undefined => isFalse (fun h => h rfl)
  | .null => isTrue (fun h => by cases h)
  | .val _ => isTrue (fun h => by cases h)

instance instDecidableResumeUrlPresent (resume : Js DocumentFile) :
    Decidable (ResumeUrlPresent resume) :=
  match resume with
  | .undefined => isFalse (fun ⟨_, h, _⟩ => by cases h)
  | .null => isFalse (fun ⟨_, h, _⟩ => by cases h)
  | .val d =>
    if h : NonEmptyText d.url then isTrue ⟨d, rfl, h⟩
    else isFalse (fun ⟨_, h1, h2⟩ => by cases h1; exact h h2)

instance instDecidableLoadedUserHasProfileImage (user : UserRef) :
    Decidable (LoadedUserHasProfileImage user) :=
  match user with
  | .undefined => isFalse (fun ⟨_, h, _⟩ => by cases h)
  | .null => isFalse (fun ⟨_, h, _⟩ => by cases h)
  | .id _ => isFalse (fun ⟨_, h, _⟩ => by cases h)
  | .populated u =>
    if h : u.profileImage.truthy = true then isTrue ⟨u, rfl, h⟩
    else isFalse (fun ⟨_, h1, h2⟩ => by cases h1; exact h h2)

/-- The ten checks of the completion algorithm, in the order of the specification, the tenth
one read on the record alone: the `user` path holds the loaded user document with a profile
image. -/
def completionChecks (r : JobSeeker) : List Bool :=
  [ decide (NonEmptyText r.title),
    decide (NonEmptyText r.bio),
    decide (HasAtLeastOneEntry r.specializations),
    decide (IsDefined r.experience.totalYears),
    decide (HasAtLeastOneEntry r.education),
    decide (HasAtLeastOneEntry r.workExperience),
    decide (HasAtLeastOneEntry r.skills),
    decide (HasAtLeastOneEntry r.jobPreferences.preferredLocations),
    decide (ResumeUrlPresent r.resume),
    decide (LoadedUserHasProfileImage r.user) ]

/-- The number of satisfied checks among the ten, the tenth one read on the record alone. -/
def satisfiedChecks (r : JobSeeker) : Nat :=
  (completionChecks r).count true

/-! ## The date validators of `workExperience` and `certifications` -/

/-- `ToNumber` on a `Date` path, as the relational operators apply it: `undefined` gives `NaN`
(here `none`), `null` gives `0`, a date gives its time value. -/
def Js.toNumber : Js Date → Option Int
  | .undefined => none
  | .null => some 0
  | .val d => some d

/-- The relational operator `a >= b` on numbers: false as soon as one side is `NaN`. -/
def jsGe : Option Int → Option Int → Bool
  | some x, some y => decide (y ≤ x)
  | _, _ => false

/-- The validator of `workExperience.endDate`:
`function(value) { return !value || value >= this.startDate; }`. -/
def workExperienceEndDateValidator (value : Js Date) (this : WorkExperience) : Bool :=
  !value.truthyObj || jsGe value.toNumber this.startDate.toNumber

/-- The validator of `certifications.expiryDate`:
`function(value) { return !value || value >= this.issueDate; }`. -/
def certificationExpiryDateValidator (value : Js Date) (this : Certification) : Bool :=
  !value.truthyObj || jsGe value.toNumber this.issueDate.toNumber

/-- The `endDate` validator run on an entry: `value` is the entry's own `endDate`. -/
def WorkExperience.endDateAccepted (w : WorkExperience) : Bool :=
  workExperienceEndDateValidator w.endDate w

/-- The `expiryDate` validator run on an entry: `value` is the entry's own `expiryDate`. -/
def Certification.expiryDateAccepted (c : Certification) : Bool :=
  certificationExpiryDateValidator c.expiryDate c

/-- One day, in milliseconds. -/
def msPerDay : Int := 86400000

/-! ## `src/services/emailService.js` -/

/-- The two variables of `process.env` that enter a rendered message; an unset variable is
`undefined`. -/
structure Env where
  FRONTEND_URL : Option String
  EMAIL_FROM : Option String

/-- The object handed to `transporter.sendMail`. -/
structure MailOptions where
  «from» : String
  «to» : Js String
  subject : String
  html : String

/-- The substitution `${x}` of a template literal on a string argument: `ToString`. -/
def Js.tmpl : Js String → String
  | .undefined => "undefined"
  | .null => "null"
  | .val s => s

/-- The substitution `${process.env.X}` of a template literal. -/
def envTmpl : Option String → String
  | none => "undefined"
  | some s => s

/-- The expression `process.env.EMAIL_FROM || 'noreply@lifemate.com'`. -/
def emailFromOrDefault (env : Env) : String :=
  match env.EMAIL_FROM with
  | some s => if s ≠ "" then s else "noreply@lifemate.com"
  | none => "noreply@lifemate.com"

/-- The `from` option, the same template in every sender. -/
def fromHeader (env : Env) : String :=
  "\"LifeMate\" <" ++ emailFromOrDefault env ++ ">"

/-- The `html` template of `sendVerificationEmail` up to `${firstName}`. -/
def verificationHtmlA : String :=
  "\n" ++
  "        <div style=\"font-family: Arial, sans-serif; max-width: 600px; margin: 0 auto;\">\n" ++
  "          <div style=\"background: linear-gradient(135deg, #667eea 0%, #764ba2 100%); padding: 30px; text-align: center;\">\n" ++
  "            <h1 style=\"color: white; margin: 0; font-size: 28px;\">LifeMate</h1>\n" ++
  "            <p style=\"color: white; margin: 10px 0 0 0; font-size: 16px;\">Healthcare Job Platform</p>\n" ++
  "          </div>\n" ++
  "          \n" ++
  "          <div style=\"padding: 30px; background: #f8f9fa;\">\n" ++
  "            <h2 style=\"color: #333; margin-bottom: 20px;\">Welcome to LifeMate, "

/-- The `html` template of `sendVerificationEmail` between `${firstName}` and the first `${verificationUrl}`. -/
def verificationHtmlB : String :=
  "!</h2>\n" ++
  "            \n" ++
  "            <p style=\"color: #666; line-height: 1.6; margin-bottom: 20px;\">\n" ++
  "              Thank you for registering with LifeMate. To complete your registration and start exploring healthcare job opportunities, please verify your email address by clicking the button below.\n" ++
  "            </p>\n" ++
  "            \n" ++
  "            <div style=\"text-align: center; margin: 30px 0;\">\n" ++
  "              <a href=\""

/-- The `html` template of `sendVerificationEmail` between the two `${verificationUrl}`. -/
def verificationHtmlC : String :=
  "\" \n" ++
  "                 style=\"background: #667eea; color: white; padding: 12px 30px; text-decoration: none; border-radius: 5px; font-weight: bold; display: inline-block;\">\n" ++
  "                Verify Email Address\n" ++
  "              </a>\n" ++
  "            </div>\n" ++
  "            \n" ++
  "            <p style=\"color: #666; line-height: 1.6; margin-bottom: 20px;\">\n" ++
  "              If the button doesn't work, you can copy and paste this link into your browser:\n" ++
  "            </p>\n" ++
  "            \n" ++
  "            <p style=\"color: #667eea; word-break: break-all; background: #f0f0f0; padding: 10px; border-radius: 5px;\">\n" ++
  "              "

/-- The `html` template of `sendVerificationEmail` after the second `${verificationUrl}`. -/
def verificationHtmlD : String :=
  "\n" ++
  "            </p>\n" ++
  "            \n" ++
  "            <p style=\"color: #666; line-height: 1.6; margin-top: 30px; font-size: 14px;\">\n" ++
  "              This verification link will expire in 24 hours. If you didn't create an account with LifeMate, please ignore this email.\n" ++
  "            </p>\n" ++
  "          </div>\n" ++
  "          \n" ++
  "          <div style=\"background: #333; padding: 20px; text-align: center;\">\n" ++
  "            <p style=\"color: #999; margin: 0; font-size: 14px;\">\n" ++
  "              © 2024 LifeMate. All rights reserved.\n" ++
  "            </p>\n" ++
  "            <p style=\"color: #999; margin: 5px 0 0 0; font-size: 12px;\">\n" ++
  "              This is an automated email. Please do not reply to this message.\n" ++
  "            </p>\n" ++
  "          </div>\n" ++
  "        </div>\n" ++
  "      "

/-- The `html` template of `sendPasswordResetEmail` up to `${firstName}`. -/
def passwordResetHtmlA : String :=
  "\n" ++
  "        <div style=\"font-family: Arial, sans-serif; max-width: 600px; margin: 0 auto;\">\n" ++
  "          <div style=\"background: linear-gradient(135deg, #667eea 0%, #764ba2 100%); padding: 30px; text-align: center;\">\n" ++
  "            <h1 style=\"color: white; margin: 0; font-size: 28px;\">LifeMate</h1>\n" ++
  "            <p style=\"color: white; margin: 10px 0 0 0; font-size: 16px;\">Healthcare Job Platform</p>\n" ++
  "          </div>\n" ++
  "          \n" ++
  "          <div style=\"padding: 30px; background: #f8f9fa;\">\n" ++
  "            <h2 style=\"color: #333; margin-bottom: 20px;\">Password Reset Request</h2>\n" ++
  "            \n" ++
  "            <p style=\"color: #666; line-height: 1.6; margin-bottom: 20px;\">\n" ++
  "              Hello "

/-- The `html` template of `sendPasswordResetEmail` between `${firstName}` and the first `${resetUrl}`. -/
def passwordResetHtmlB : String :=
  ",\n" ++
  "            </p>\n" ++
  "            \n" ++
  "            <p style=\"color: #666; line-height: 1.6; margin-bottom: 20px;\">\n" ++
  "              We received a request to reset your password for your LifeMate account. If you made this request, click the button below to reset your password.\n" ++
  "            </p>\n" ++
  "            \n" ++
  "            <div style=\"text-align: center; margin: 30px 0;\">\n" ++
  "              <a href=\""

/-- The `html` template of `sendPasswordResetEmail` between the two `${resetUrl}`. -/
def passwordResetHtmlC : String :=
  "\" \n" ++
  "                 style=\"background: #dc3545; color: white; padding: 12px 30px; text-decoration: none; border-radius: 5px; font-weight: bold; display: inline-block;\">\n" ++
  "                Reset Password\n" ++
  "              </a>\n" ++
  "            </div>\n" ++
  "            \n" ++
  "            <p style=\"color: #666; line-height: 1.6; margin-bottom: 20px;\">\n" ++
  "              If the button doesn't work, you can copy and paste this link into your browser:\n" ++
  "            </p>\n" ++
  "            \n" ++
  "            <p style=\"color: #667eea; word-break: break-all; background: #f0f0f0; padding: 10px; border-radius: 5px;\">\n" ++
  "              "

/-- The `html` template of `sendPasswordResetEmail` after the second `${resetUrl}`. -/
def passwordResetHtmlD : String :=
  "\n" ++
  "            </p>\n" ++
  "            \n" ++
  "            <p style=\"color: #666; line-height: 1.6; margin-top: 30px; font-size: 14px;\">\n" ++
  "              This password reset link will expire in 1 hour. If you didn't request a password reset, please ignore this email and your password will remain unchanged.\n" ++
  "            </p>\n" ++
  "            \n" ++
  "            <p style=\"color: #666; line-height: 1.6; margin-top: 20px; font-size: 14px;\">\n" ++
  "              For security reasons, please do not share this link with anyone.\n" ++
  "            </p>\n" ++
  "          </div>\n" ++
  "          \n" ++
  "          <div style=\"background: #333; padding: 20px; text-align: center;\">\n" ++
  "            <p style=\"color: #999; margin: 0; font-size: 14px;\">\n" ++
  "              © 2024 LifeMate. All rights reserved.\n" ++
  "            </p>\n" ++
  "            <p style=\"color: #999; margin: 5px 0 0 0; font-size: 12px;\">\n" ++
  "              This is an automated email. Please do not reply to this message.\n" ++
  "            </p>\n" ++
  "          </div>\n" ++
  "        </div>\n" ++
  "      "

/-- The local constant `verificationUrl` of `sendVerificationEmail`:
`${process.env.FRONTEND_URL}/verify-email/${token}`. -/
def verificationUrl (env : Env) (token : Js String) : String :=
  envTmpl env.FRONTEND_URL ++ "/verify-email/" ++ token.tmpl

/-- The `mailOptions` object built by `sendVerificationEmail`. -/
def verificationMailOptions (env : Env) (email token firstName : Js String) : MailOptions :=
  { «from» := fromHeader env
    «to» := email
    subject := "Verify Your Email Address - LifeMate"
    html := verificationHtmlA ++ firstName.tmpl ++ verificationHtmlB ++
      verificationUrl env token ++ verificationHtmlC ++ verificationUrl env token ++
      verificationHtmlD }

/-- The local constant `resetUrl` of `sendPasswordResetEmail`:
`${process.env.FRONTEND_URL}/reset-password/${token}`. -/
def resetUrl (env : Env) (token : Js String) : String :=
  envTmpl env.FRONTEND_URL ++ "/reset-password/" ++ token.tmpl

/-- The `mailOptions` object built by `sendPasswordResetEmail`. -/
def passwordResetMailOptions (env : Env) (email token firstName : Js String) : MailOptions :=
  { «from» := fromHeader env
    «to» := email
    subject := "Reset Your Password - LifeMate"
    html := passwordResetHtmlA ++ firstName.tmpl ++ passwordResetHtmlB ++
      resetUrl env token ++ passwordResetHtmlC ++ resetUrl env token ++
      passwordResetHtmlD }

/-- The outcome of a sender: the messages it submitted to the transport, in order, and what
the caller gets (the transport's result, or the error thrown again by the `catch` block). The
two `console` lines are not part of the outcome. -/
structure SendOutcome (ε ρ : Type) where
  submitted : List MailOptions
  result : Except ε ρ

/-- The body shared by the senders once `mailOptions` is built: `await
transporter.sendMail(mailOptions)`, then `return result`, or `throw error` from the `catch`
block. -/
def submit {ε ρ : Type} (sendMail : MailOptions → Except ε ρ) (mailOptions : MailOptions) :
    SendOutcome ε ρ :=
  match sendMail mailOptions with
  | .ok result => { submitted := [mailOptions], result := .ok result }
  | .error error => { submitted := [mailOptions], result := .error error }

/-- The sender `sendVerificationEmail`, over the transport's `sendMail`. -/
def sendVerificationEmail {ε ρ : Type} (env : Env) (sendMail : MailOptions → Except ε ρ)
    (email token firstName : Js String) : SendOutcome ε ρ :=
  submit sendMail (verificationMailOptions env email token firstName)

/-- The sender `sendPasswordResetEmail`, over the transport's `sendMail`. -/
def sendPasswordResetEmail {ε ρ : Type} (env : Env) (sendMail : MailOptions → Except ε ρ)
    (email token firstName : Js String) : SendOutcome ε ρ :=
  submit sendMail (passwordResetMailOptions env email token firstName)

/-! ### The three other senders -/

/-- What the host's clock and locale render: `new Date().toLocaleDateString()` at the time of
the call, and `new Date(x).toLocaleDateString()` for a value `x`. -/
structure Host where
  today : String
  localeDate : JsVal → String

/-- The argument `interviewDetails` of `sendInterviewInvitationEmail`, as far as the sender
reads it. -/
structure InterviewDetails where
  date : JsVal
  time : Js String
  type : Js String
  location : Js String
  meetingLink : Js String
  notes : Js String

/-- What a sender throws: the `TypeError` of a property read on `undefined` or `null`, or the
error of the transport thrown again by the `catch` block. -/
inductive Thrown (ε : Type) where
  | typeError : Thrown ε
  | transport (error : ε) : Thrown ε

/-- The `html` template of `sendApplicationNotificationEmail` up to `${employerName}`. -/
def applicationHtmlA : String :=
  "\n" ++
  "        <div style=\"font-family: Arial, sans-serif; max-width: 600px; margin: 0 auto;\">\n" ++
  "          <div style=\"background: linear-gradient(135deg, #667eea 0%, #764ba2 100%); padding: 30px; text-align: center;\">\n" ++
  "            <h1 style=\"color: white; margin: 0; font-size: 28px;\">LifeMate</h1>\n" ++
  "            <p style=\"color: white; margin: 10px 0 0 0; font-size: 16px;\">Healthcare Job Platform</p>\n" ++
  "          </div>\n" ++
  "          \n" ++
  "          <div style=\"padding: 30px; background: #f8f9fa;\">\n" ++
  "            <h2 style=\"color: #333; margin-bottom: 20px;\">New Job Application Received</h2>\n" ++
  "            \n" ++
  "            <p style=\"color: #666; line-height: 1.6; margin-bottom: 20px;\">\n" ++
  "              Hello "

/-- The `html` template of `sendApplicationNotificationEmail` between `${employerName}` and `${jobTitle}`. -/
def applicationHtmlB : String :=
  ",\n" ++
  "            </p>\n" ++
  "            \n" ++
  "            <p style=\"color: #666; line-height: 1.6; margin-bottom: 20px;\">\n" ++
  "              You have received a new application for the position: <strong>"

/-- The `html` template of `sendApplicationNotificationEmail` between `${jobTitle}` and `${candidateName}`. -/
def applicationHtmlC : String :=
  "</strong>\n" ++
  "            </p>\n" ++
  "            \n" ++
  "            <div style=\"background: white; padding: 20px; border-radius: 5px; border-left: 4px solid #667eea; margin: 20px 0;\">\n" ++
  "              <h3 style=\"color: #333; margin-top: 0;\">Application Details:</h3>\n" ++
  "              <p style=\"margin: 5px 0;\"><strong>Candidate Name:</strong> "

/-- The `html` template of `sendApplicationNotificationEmail` between `${candidateName}` and `${candidateEmail}`. -/
def applicationHtmlD : String :=
  "</p>\n" ++
  "              <p style=\"margin: 5px 0;\"><strong>Candidate Email:</strong> "

/-- The `html` template of `sendApplicationNotificationEmail` between `${candidateEmail}` and `${jobTitle}`. -/
def applicationHtmlE : String :=
  "</p>\n" ++
  "              <p style=\"margin: 5px 0;\"><strong>Job Title:</strong> "

/-- The `html` template of `sendApplicationNotificationEmail` between `${jobTitle}` and `${new Date().toLocaleDateString()}`. -/
def applicationHtmlF : String :=
  "</p>\n" ++
  "              <p style=\"margin: 5px 0;\"><strong>Applied On:</strong> "

/-- The `html` template of `sendApplicationNotificationEmail` between `${new Date().toLocaleDateString()}` and `${process.env.FRONTEND_URL}`. -/
def applicationHtmlG : String :=
  "</p>\n" ++
  "            </div>\n" ++
  "            \n" ++
  "            <div style=\"text-align: center; margin: 30px 0;\">\n" ++
  "              <a href=\""

/-- The `html` template of `sendApplicationNotificationEmail` after the last `${process.env.FRONTEND_URL}`. -/
def applicationHtmlH : String :=
  "/employer/applications\" \n" ++
  "                 style=\"background: #667eea; color: white; padding: 12px 30px; text-decoration: none; border-radius: 5px; font-weight: bold; display: inline-block;\">\n" ++
  "                View Application\n" ++
  "              </a>\n" ++
  "            </div>\n" ++
  "            \n" ++
  "            <p style=\"color: #666; line-height: 1.6; margin-top: 30px; font-size: 14px;\">\n" ++
  "              Log in to your LifeMate employer dashboard to review the full application and candidate profile.\n" ++
  "            </p>\n" ++
  "          </div>\n" ++
  "          \n" ++
  "          <div style=\"background: #333; padding: 20px; text-align: center;\">\n" ++
  "            <p style=\"color: #999; margin: 0; font-size: 14px;\">\n" ++
  "              © 2024 LifeMate. All rights reserved.\n" ++
  "            </p>\n" ++
  "            <p style=\"color: #999; margin: 5px 0 0 0; font-size: 12px;\">\n" ++
  "              This is an automated email. Please do not reply to this message.\n" ++
  "            </p>\n" ++
  "          </div>\n" ++
  "        </div>\n" ++
  "      "

/-- The `mailOptions` object built by `sendApplicationNotificationEmail`. -/
def applicationMailOptions (host : Host) (env : Env)
    (employerEmail employerName jobTitle candidateName candidateEmail : Js String) :
    MailOptions :=
  { «from» := fromHeader env
    «to» := employerEmail
    subject := "New Application for " ++ jobTitle.tmpl ++ " - LifeMate"
    html := applicationHtmlA ++ employerName.tmpl ++ applicationHtmlB ++ jobTitle.tmpl ++
      applicationHtmlC ++ candidateName.tmpl ++ applicationHtmlD ++ candidateEmail.tmpl ++
      applicationHtmlE ++ jobTitle.tmpl ++ applicationHtmlF ++ host.today ++
      applicationHtmlG ++ envTmpl env.FRONTEND_URL ++ applicationHtmlH }

/-- The sender `sendApplicationNotificationEmail`, over the transport's `sendMail`. -/
def sendApplicationNotificationEmail {ε ρ : Type} (host : Host) (env : Env)
    (sendMail : MailOptions → Except ε ρ)
    (employerEmail employerName jobTitle candidateName candidateEmail : Js String) :
    SendOutcome ε ρ :=
  submit sendMail
    (applicationMailOptions host env employerEmail employerName jobTitle candidateName
      candidateEmail)

/-- The `html` template of `sendInterviewInvitationEmail` up to `${candidateName}`. -/
def interviewHtmlA : String :=
  "\n" ++
  "        <div style=\"font-family: Arial, sans-serif; max-width: 600px; margin: 0 auto;\">\n" ++
  "          <div style=\"background: linear-gradient(135deg, #667eea 0%, #764ba2 100%); padding: 30px; text-align: center;\">\n" ++
  "            <h1 style=\"color: white; margin: 0; font-size: 28px;\">LifeMate</h1>\n" ++
  "            <p style=\"color: white; margin: 10px 0 0 0; font-size: 16px;\">Healthcare Job Platform</p>\n" ++
  "          </div>\n" ++
  "          \n" ++
  "          <div style=\"padding: 30px; background: #f8f9fa;\">\n" ++
  "            <h2 style=\"color: #333; margin-bottom: 20px;\">Interview Invitation</h2>\n" ++
  "            \n" ++
  "            <p style=\"color: #666; line-height: 1.6; margin-bottom: 20px;\">\n" ++
  "              Congratulations "

/-- The `html` template of `sendInterviewInvitationEmail` between `${candidateName}` and `${jobTitle}`. -/
def interviewHtmlB : String :=
  "!\n" ++
  "            </p>\n" ++
  "            \n" ++
  "            <p style=\"color: #666; line-height: 1.6; margin-bottom: 20px;\">\n" ++
  "              We are pleased to invite you for an interview for the position of <strong>"

/-- The `html` template of `sendInterviewInvitationEmail` between `${jobTitle}` and `${companyName}`. -/
def interviewHtmlC : String :=
  "</strong> at <strong>"

/-- The `html` template of `sendInterviewInvitationEmail` between `${companyName}` and the date substitution. -/
def interviewHtmlD : String :=
  "</strong>.\n" ++
  "            </p>\n" ++
  "            \n" ++
  "            <div style=\"background: white; padding: 20px; border-radius: 5px; border-left: 4px solid #28a745; margin: 20px 0;\">\n" ++
  "              <h3 style=\"color: #333; margin-top: 0;\">Interview Details:</h3>\n" ++
  "              <p style=\"margin: 5px 0;\"><strong>Date:</strong> "

/-- The `html` template of `sendInterviewInvitationEmail` between the date substitution and `${interviewDetails.time}`. -/
def interviewHtmlE : String :=
  "</p>\n" ++
  "              <p style=\"margin: 5px 0;\"><strong>Time:</strong> "

/-- The `html` template of `sendInterviewInvitationEmail` between `${interviewDetails.time}` and `${interviewDetails.type}`. -/
def interviewHtmlF : String :=
  "</p>\n" ++
  "              <p style=\"margin: 5px 0;\"><strong>Type:</strong> "

/-- The `html` template of `sendInterviewInvitationEmail` between `${interviewDetails.type}` and `${interviewDetails.location}`. -/
def interviewHtmlG : String :=
  "</p>\n" ++
  "              "

/-- The `html` template of `sendInterviewInvitationEmail` between `${interviewDetails.location}` and `${interviewDetails.meetingLink}`. -/
def interviewHtmlH : String :=
  "\n" ++
  "              "

/-- The `html` template of `sendInterviewInvitationEmail` between `${interviewDetails.meetingLink}` and `${interviewDetails.notes}`. -/
def interviewHtmlI : String :=
  "\n" ++
  "              "

/-- The `html` template of `sendInterviewInvitationEmail` between `${interviewDetails.notes}` and `${process.env.FRONTEND_URL}`. -/
def interviewHtmlJ : String :=
  "\n" ++
  "            </div>\n" ++
  "            \n" ++
  "            <div style=\"text-align: center; margin: 30px 0;\">\n" ++
  "              <a href=\""

/-- The `html` template of `sendInterviewInvitationEmail` after the last `${process.env.FRONTEND_URL}`. -/
def interviewHtmlK : String :=
  "/jobseeker/applications\" \n" ++
  "                 style=\"background: #28a745; color: white; padding: 12px 30px; text-decoration: none; border-radius: 5px; font-weight: bold; display: inline-block;\">\n" ++
  "                View Application\n" ++
  "              </a>\n" ++
  "            </div>\n" ++
  "            \n" ++
  "            <p style=\"color: #666; line-height: 1.6; margin-top: 30px; font-size: 14px;\">\n" ++
  "              Please confirm your attendance by replying to this email or through your LifeMate dashboard.\n" ++
  "            </p>\n" ++
  "          </div>\n" ++
  "          \n" ++
  "          <div style=\"background: #333; padding: 20px; text-align: center;\">\n" ++
  "            <p style=\"color: #999; margin: 0; font-size: 14px;\">\n" ++
  "              © 2024 LifeMate. All rights reserved.\n" ++
  "            </p>\n" ++
  "            <p style=\"color: #999; margin: 5px 0 0 0; font-size: 12px;\">\n" ++
  "              This is an automated email. Please do not reply to this message.\n" ++
  "            </p>\n" ++
  "          </div>\n" ++
  "        </div>\n" ++
  "      "

/-- The substitution
`${interviewDetails.location ? <the "Location:" paragraph> : ''}`. -/
def locationSection (location : Js String) : String :=
  if location.truthyStr then
    "<p style=\"margin: 5px 0;\"><strong>Location:</strong> " ++ location.tmpl ++ "</p>"
  else ""

/-- The substitution
`${interviewDetails.meetingLink ? <the "Meeting Link:" paragraph> : ''}`. -/
def meetingLinkSection (meetingLink : Js String) : String :=
  if meetingLink.truthyStr then
    "<p style=\"margin: 5px 0;\"><strong>Meeting Link:</strong> <a href=\"" ++
      meetingLink.tmpl ++ "\">" ++ meetingLink.tmpl ++ "</a></p>"
  else ""

/-- The substitution
`${interviewDetails.notes ? <the "Notes:" paragraph> : ''}`. -/
def notesSection (notes : Js String) : String :=
  if notes.truthyStr then
    "<p style=\"margin: 5px 0;\"><strong>Notes:</strong> " ++ notes.tmpl ++ "</p>"
  else ""

/-- The `mailOptions` object built by `sendInterviewInvitationEmail` when `interviewDetails`
is an object. -/
def interviewMailOptions (host : Host) (env : Env)
    (candidateEmail candidateName jobTitle companyName : Js String)
    (interviewDetails : InterviewDetails) : MailOptions :=
  { «from» := fromHeader env
    «to» := candidateEmail
    subject := "Interview Invitation for " ++ jobTitle.tmpl ++ " - " ++ companyName.tmpl
    html := interviewHtmlA ++ candidateName.tmpl ++ interviewHtmlB ++ jobTitle.tmpl ++
      interviewHtmlC ++ companyName.tmpl ++ interviewHtmlD ++
      host.localeDate interviewDetails.date ++ interviewHtmlE ++
      interviewDetails.time.tmpl ++ interviewHtmlF ++ interviewDetails.type.tmpl ++
      interviewHtmlG ++ locationSection interviewDetails.location ++ interviewHtmlH ++
      meetingLinkSection interviewDetails.meetingLink ++ interviewHtmlI ++
      notesSection interviewDetails.notes ++ interviewHtmlJ ++
      envTmpl env.FRONTEND_URL ++ interviewHtmlK }

/-- The sender `sendInterviewInvitationEmail`, over the transport's `sendMail`. When
`interviewDetails` is `undefined` or `null`, the read `interviewDetails.date` inside the
`try` block throws a `TypeError` before `sendMail` is reached, and the `catch` block throws it
again. -/
def sendInterviewInvitationEmail {ε ρ : Type} (host : Host) (env : Env)
    (sendMail : MailOptions → Except ε ρ)
    (candidateEmail candidateName jobTitle companyName : Js String)
    (interviewDetails : Js InterviewDetails) : SendOutcome (Thrown ε) ρ :=
  match interviewDetails with
  | .val details =>
    let mailOptions :=
      interviewMailOptions host env candidateEmail candidateName jobTitle companyName details
    match sendMail mailOptions with
    | .ok result => { submitted := [mailOptions], result := .ok result }
    | .error error => { submitted := [mailOptions], result := .error (.transport error) }
  | _ => { submitted := [], result := .error .typeError }

/-- The `html` template of `sendWelcomeEmail` up to `${firstName}`. -/
def welcomeHtmlA : String :=
  "\n" ++
  "        <div style=\"font-family: Arial, sans-serif; max-width: 600px; margin: 0 auto;\">\n" ++
  "          <div style=\"background: linear-gradient(135deg, #667eea 0%, #764ba2 100%); padding: 30px; text-align: center;\">\n" ++
  "            <h1 style=\"color: white; margin: 0; font-size: 28px;\">Welcome to LifeMate!</h1>\n" ++
  "            <p style=\"color: white; margin: 10px 0 0 0; font-size: 16px;\">Healthcare Job Platform</p>\n" ++
  "          </div>\n" ++
  "          \n" ++
  "          <div style=\"padding: 30px; background: #f8f9fa;\">\n" ++
  "            <h2 style=\"color: #333; margin-bottom: 20px;\">Hello "

/-- The `html` template of `sendWelcomeEmail` between `${firstName}` and the first role conditional. -/
def welcomeHtmlB : String :=
  "!</h2>\n" ++
  "            \n" ++
  "            <p style=\"color: #666; line-height: 1.6; margin-bottom: 20px;\">\n" ++
  "              Welcome to LifeMate, the premier platform connecting healthcare professionals with amazing career opportunities!\n" ++
  "            </p>\n" ++
  "            \n" ++
  "            <p style=\"color: #666; line-height: 1.6; margin-bottom: 20px;\">\n" ++
  "              Your account has been successfully created and verified. You're now ready to "

/-- The `html` template of `sendWelcomeEmail` between the two role conditionals. -/
def welcomeHtmlC : String :=
  ".\n" ++
  "            </p>\n" ++
  "            \n" ++
  "            <div style=\"background: white; padding: 20px; border-radius: 5px; border-left: 4px solid #667eea; margin: 20px 0;\">\n" ++
  "              <h3 style=\"color: #333; margin-top: 0;\">What's Next?</h3>\n" ++
  "              "

/-- The `html` template of `sendWelcomeEmail` between the second role conditional and `${dashboardUrl}`. -/
def welcomeHtmlD : String :=
  "\n" ++
  "            </div>\n" ++
  "            \n" ++
  "            <div style=\"text-align: center; margin: 30px 0;\">\n" ++
  "              <a href=\""

/-- The `html` template of `sendWelcomeEmail` after the last `${dashboardUrl}`. -/
def welcomeHtmlE : String :=
  "\" \n" ++
  "                 style=\"background: #667eea; color: white; padding: 12px 30px; text-decoration: none; border-radius: 5px; font-weight: bold; display: inline-block;\">\n" ++
  "                Go to Dashboard\n" ++
  "              </a>\n" ++
  "            </div>\n" ++
  "            \n" ++
  "            <p style=\"color: #666; line-height: 1.6; margin-top: 30px; font-size: 14px;\">\n" ++
  "              If you have any questions or need assistance, feel free to contact our support team. We're here to help you succeed!\n" ++
  "            </p>\n" ++
  "          </div>\n" ++
  "          \n" ++
  "          <div style=\"background: #333; padding: 20px; text-align: center;\">\n" ++
  "            <p style=\"color: #999; margin: 0; font-size: 14px;\">\n" ++
  "              © 2024 LifeMate. All rights reserved.\n" ++
  "            </p>\n" ++
  "            <p style=\"color: #999; margin: 5px 0 0 0; font-size: 12px;\">\n" ++
  "              This is an automated email. Please do not reply to this message.\n" ++
  "            </p>\n" ++
  "          </div>\n" ++
  "        </div>\n" ++
  "      "

/-- The strict comparison `x === s` of a string argument with a string literal. -/
def Js.strictEqStr (x : Js String) (s : String) : Bool :=
  match x with
  | .val v => decide (v = s)
  | _ => false

/-- The next-steps list of a job seeker, the first branch of the second role conditional. -/
def jobseekerNextSteps : String :=
  "\n" ++
  "                <ul style=\"color: #666; line-height: 1.6;\">\n" ++
  "                  <li>Complete your profile to increase your visibility to employers</li>\n" ++
  "                  <li>Upload your resume and portfolio</li>\n" ++
  "                  <li>Set your job preferences and notifications</li>\n" ++
  "                  <li>Start browsing and applying to healthcare jobs</li>\n" ++
  "                </ul>\n" ++
  "              "

/-- The next-steps list of an employer, the second branch of the second role conditional. -/
def employerNextSteps : String :=
  "\n" ++
  "                <ul style=\"color: #666; line-height: 1.6;\">\n" ++
  "                  <li>Complete your organization profile</li>\n" ++
  "                  <li>Upload your company logo and documents</li>\n" ++
  "                  <li>Get your organization verified</li>\n" ++
  "                  <li>Start posting healthcare job opportunities</li>\n" ++
  "                </ul>\n" ++
  "              "

/-- The local constant `dashboardUrl` of `sendWelcomeEmail`. -/
def dashboardUrl (env : Env) (role : Js String) : String :=
  if role.strictEqStr "jobseeker" then envTmpl env.FRONTEND_URL ++ "/jobseeker/dashboard"
  else envTmpl env.FRONTEND_URL ++ "/employer/dashboard"

/-- The first role conditional of the `html` template of `sendWelcomeEmail`. -/
def welcomeReadyText (role : Js String) : String :=
  if role.strictEqStr "jobseeker" then "explore healthcare job opportunities and advance your career"
  else "find the best healthcare talent for your organization"

/-- The second role conditional of the `html` template of `sendWelcomeEmail`. -/
def welcomeNextSteps (role : Js String) : String :=
  if role.strictEqStr "jobseeker" then jobseekerNextSteps else employerNextSteps

/-- The `mailOptions` object built by `sendWelcomeEmail`. -/
def welcomeMailOptions (env : Env) (email firstName role : Js String) : MailOptions :=
  { «from» := fromHeader env
    «to» := email
    subject := "Welcome to LifeMate - Your Healthcare Career Journey Starts Here!"
    html := welcomeHtmlA ++ firstName.tmpl ++ welcomeHtmlB ++ welcomeReadyText role ++
      welcomeHtmlC ++ welcomeNextSteps role ++ welcomeHtmlD ++ dashboardUrl env role ++
      welcomeHtmlE }

/-- The sender `sendWelcomeEmail`, over the transport's `sendMail`. -/
def sendWelcomeEmail {ε ρ : Type} (env : Env) (sendMail : MailOptions → Except ε ρ)
    (email firstName role : Js String) : SendOutcome ε ρ :=
  submit sendMail (welcomeMailOptions env email firstName role)

/-! ### Counting sections in a rendered body -/

/-- The number of positions of a text at which `marker` starts. -/
def countOccurrences (marker : List Char) : List Char → Nat
  | [] => 0
  | c :: cs => (if marker.isPrefixOf (c :: cs) then 1 else 0) + countOccurrences marker cs

/-- The number of occurrences of `marker` in `body`. -/
def occurrences (body marker : String) : Nat :=
  countOccurrences marker.data body.data

/-- The heading that opens the text of the meeting-link paragraph. -/
def meetingLinkMarker : String := "<strong>Meeting Link:</strong>"

/-- The heading that opens the text of the location paragraph. -/
def locationMarker : String := "<strong>Location:</strong>"

/-- The heading that opens the text of the notes paragraph. -/
def notesMarker : String := "<strong>Notes:</strong>"

/-- A host whose locale renders dates as month/day/year. -/
def scenarioHost : Host :=
  { today := "11/4/2026", localeDate := fun _ => "11/12/2026" }

/-- An environment with the base URL of the specification's scenarios. -/
def scenarioEnv : Env :=
  { FRONTEND_URL := some "https://example.com", EMAIL_FROM := none }

/-- Interview details with date, time and type only: `location`, `meetingLink` and `notes`
are omitted. -/
def scenarioDetails : InterviewDetails :=
  { date := .str "2026-11-12", time := .val "10:00 AM", type := .val "Video",
    location := .undefined, meetingLink := .undefined, notes := .undefined }

/-- The body rendered for the scenario's candidate, job and company with the given details. -/
def scenarioBody (details : InterviewDetails) : String :=
  (interviewMailOptions scenarioHost scenarioEnv (.val "asha@example.com") (.val "Asha Rao")
    (.val "Staff Nurse") (.val "City Hospital") details).html

/-- Interview details that omit `meetingLink` and whose `notes` text is itself markup: it
closes the notes paragraph and opens a paragraph of the shape of the meeting-link one. -/
def markupNotesDetails : InterviewDetails :=
  { scenarioDetails with
    notes := .val ("see below</p>" ++ meetingLinkSection (.val "https://meet.example/x") ++
      "<p>") }

/-- A transport that accepts every message and assigns it the same message identifier. -/
def acceptAll : MailOptions → Except String String :=
  fun _ => .ok "<1@mail.example>"

/-! ## Field validation of the schema

The validators that the schema options declare, path by path. A validator other than `required`
is not run on `undefined`. -/

/-- What the schema takes from outside this file: the year `new Date().getFullYear()` at the
time the schema is defined, and whether the `enum` validator of the library accepts `null`
(it differs between major versions of the library). -/
structure SchemaContext where
  currentYear : ℚ
  enumAcceptsNull : Bool

/-- The `length` of a JavaScript string: its number of UTF-16 code units. -/
def jsLength (s : String) : Nat :=
  (s.data.map (fun c => if c.toNat < 65536 then 1 else 2)).sum

/-- The option `required: true` on a `String` path: a non-empty string. -/
def requiredStr : Js String → Bool
  | .val s => decide (s ≠ "")
  | _ => false

/-- The option `required: true` on a `Number` or `Date` path: a value. -/
def requiredVal {α : Type} : Js α → Bool
  | .val _ => true
  | _ => false

/-- The option `required: true` on the `ObjectId` path `user`. -/
def requiredRef : UserRef → Bool
  | .id _ => true
  | .populated _ => true
  | _ => false

/-- The option `maxlength: n`. -/
def maxlength (n : Nat) : Js String → Bool
  | .val s => decide (jsLength s ≤ n)
  | _ => true

/-- The option `enum: values`. -/
def enumOf (ctx : SchemaContext) (values : List String) : Js String → Bool
  | .val s => values.contains s
  | .null => ctx.enumAcceptsNull
  | .undefined => true

/-- The option `min: m`. -/
def minOf (m : ℚ) : Js ℚ → Bool
  | .val x => decide (m ≤ x)
  | _ => true

/-- The option `max: m`. -/
def maxOf (m : ℚ) : Js ℚ → Bool
  | .val x => decide (x ≤ m)
  | _ => true

/-- The validation of every element of an array path. -/
def eachOf {α : Type} (valid : α → Bool) : Js (List α) → Bool
  | .val l => l.all valid
  | _ => true

/-- The `enum` of `specializations`. -/
def specializationValues : List String :=
  ["General Medicine", "Cardiology", "Neurology", "Orthopedics", "Pediatrics", "Gynecology",
   "Dermatology", "Psychiatry", "Radiology", "Anesthesiology", "Emergency Medicine",
   "Internal Medicine", "Surgery", "Oncology", "Pathology", "Ophthalmology", "ENT", "Urology",
   "Gastroenterology", "Pulmonology", "Endocrinology", "Rheumatology", "Nephrology",
   "Hematology", "Infectious Disease", "Physical Therapy", "Occupational Therapy",
   "Speech Therapy", "Nursing", "Pharmacy", "Medical Technology", "Other"]

/-- The `enum` of `education.degree`. -/
def degreeValues : List String :=
  ["MBBS", "MD", "MS", "BDS", "MDS", "BPT", "MPT", "BSc Nursing", "MSc Nursing", "BPharm",
   "MPharm", "BSc", "MSc", "PhD", "Diploma", "Certificate", "Other"]

/-- The `enum` of `skills.level`. -/
def skillLevelValues : List String :=
  ["Beginner", "Intermediate", "Advanced", "Expert"]

/-- The `enum` of `jobPreferences.preferredJobTypes`. -/
def jobTypeValues : List String :=
  ["Full-time", "Part-time", "Contract", "Freelance", "Internship", "Volunteer"]

/-- The `enum` of `jobPreferences.preferredShifts`. -/
def shiftValues : List String :=
  ["Day", "Night", "Rotating", "Flexible"]

/-- The `enum` of `jobPreferences.expectedSalary.currency`. -/
def currencyValues : List String :=
  ["INR", "USD", "EUR", "GBP"]

/-- The `enum` of `jobPreferences.expectedSalary.period`. -/
def periodValues : List String :=
  ["Hourly", "Daily", "Monthly", "Annual"]

/-- The `enum` of `jobPreferences.availability`. -/
def availabilityValues : List String :=
  ["Immediately", "2 weeks", "1 month", "2 months", "3 months", "Negotiable"]

/-- The `enum` of `jobPreferences.remoteWorkPreference`. -/
def remoteWorkPreferenceValues : List String :=
  ["On-site only", "Remote only", "Hybrid", "No preference"]

/-- The `enum` of `portfolio.type`. -/
def portfolioTypeValues : List String :=
  ["Document", "Image", "Video", "Link"]

/-- The validators of the nested path `experience`. -/
def validateExperience (e : Experience) : Bool :=
  minOf 0 e.totalYears && maxOf 50 e.totalYears &&
  maxlength 100 e.currentPosition && maxlength 100 e.currentCompany

/-- The validators of an entry of `education`. -/
def validateEducation (ctx : SchemaContext) (e : Education) : Bool :=
  requiredStr e.degree && enumOf ctx degreeValues e.degree &&
  requiredStr e.field && maxlength 100 e.field &&
  requiredStr e.institution && maxlength 200 e.institution &&
  requiredVal e.yearOfCompletion && minOf 1950 e.yearOfCompletion &&
  maxOf (ctx.currentYear + 5) e.yearOfCompletion &&
  maxlength 20 e.grade

/-- The validators of an entry of `workExperience`. -/
def validateWorkExperience (w : WorkExperience) : Bool :=
  requiredStr w.position && maxlength 100 w.position &&
  requiredStr w.company && maxlength 100 w.company &&
  requiredStr w.location && maxlength 100 w.location &&
  requiredVal w.startDate &&
  w.endDateAccepted &&
  maxlength 1000 w.description &&
  eachOf (fun a => maxlength 200 (.val a)) w.achievements

/-- The validators of an entry of `skills`. -/
def validateSkill (ctx : SchemaContext) (k : Skill) : Bool :=
  requiredStr k.name && maxlength 50 k.name && enumOf ctx skillLevelValues k.level

/-- The validators of an entry of `certifications`. -/
def validateCertification (c : Certification) : Bool :=
  requiredStr c.name && maxlength 100 c.name &&
  requiredStr c.issuingOrganization && maxlength 100 c.issuingOrganization &&
  requiredVal c.issueDate &&
  c.expiryDateAccepted &&
  maxlength 50 c.credentialId

/-- The validators of an entry of `jobPreferences.preferredLocations`. -/
def validatePreferredLocation (l : PreferredLocation) : Bool :=
  requiredStr l.city && maxlength 50 l.city &&
  requiredStr l.state && maxlength 50 l.state &&
  requiredStr l.country && maxlength 50 l.country

/-- The validators of the nested path `jobPreferences`. -/
def validateJobPreferences (ctx : SchemaContext) (p : JobPreferences) : Bool :=
  eachOf validatePreferredLocation p.preferredLocations &&
  eachOf (fun t => enumOf ctx jobTypeValues (.val t)) p.preferredJobTypes &&
  eachOf (fun t => enumOf ctx shiftValues (.val t)) p.preferredShifts &&
  minOf 0 p.expectedSalary.min && minOf 0 p.expectedSalary.max &&
  enumOf ctx currencyValues p.expectedSalary.currency &&
  enumOf ctx periodValues p.expectedSalary.period &&
  enumOf ctx availabilityValues p.availability &&
  enumOf ctx remoteWorkPreferenceValues p.remoteWorkPreference

/-- The validators of an entry of `portfolio`. -/
def validatePortfolioItem (ctx : SchemaContext) (i : PortfolioItem) : Bool :=
  requiredStr i.title && maxlength 100 i.title &&
  maxlength 500 i.description &&
  requiredStr i.url &&
  enumOf ctx portfolioTypeValues i.type

/-- The validators declared on each of the four `stats` paths: there are none, the paths are
declared with `type: Number` and `default: 0` only. -/
def statsValidators : List (Js ℚ → Bool) := []

/-- The validators of the nested path `stats`. -/
def validateStats (s : Stats) : Bool :=
  statsValidators.all (fun v => v s.profileViews) &&
  statsValidators.all (fun v => v s.applicationsSubmitted) &&
  statsValidators.all (fun v => v s.interviewsScheduled) &&
  statsValidators.all (fun v => v s.jobsOffered)

/-- The field validation of a `JobSeeker` document: every validator of every path passes. The
paths `resume`, `coverLetter` and `privacySettings` declare no validator. -/
def validate (ctx : SchemaContext) (r : JobSeeker) : Bool :=
  requiredRef r.user &&
  maxlength 100 r.title && maxlength 1000 r.bio &&
  eachOf (fun t => enumOf ctx specializationValues (.val t)) r.specializations &&
  validateExperience r.experience &&
  eachOf (validateEducation ctx) r.education &&
  eachOf validateWorkExperience r.workExperience &&
  eachOf (validateSkill ctx) r.skills &&
  eachOf validateCertification r.certifications &&
  validateJobPreferences ctx r.jobPreferences &&
  eachOf (validatePortfolioItem ctx) r.portfolio &&
  minOf 0 r.profileCompletion && maxOf 100 r.profileCompletion &&
  validateStats r.stats

/-- A stats counter is non-negative: it holds a number that is at least 0. -/
def NonNegativeCounter (x : Js ℚ) : Prop :=
  ∃ q : ℚ, x = .val q ∧ 0 ≤ q

/-- A schema context: the schema is defined in 2026 by a library whose `enum` accepts `null`. -/
def scenarioContext : SchemaContext :=
  { currentYear := 2026, enumAcceptsNull := true }

/-- The document `r` with `stats` set to `s`, every other path untouched. -/
def JobSeeker.withStats (r : JobSeeker) (s : Stats) : JobSeeker :=
  { r with stats := s }

/-- The default record after `stats.profileViews` was set to `-1`. -/
def negativeViewsRecord : JobSeeker :=
  (JobSeeker.default "64b1f0c2a7d3e9001f2a4b6c").withStats
    { profileViews := .val (-1), applicationsSubmitted := .val 0, interviewsScheduled := .val 0,
      jobsOffered := .val 0 }

/-- The record of the specification's scenario: title "Nurse", a bio, one specialization,
`totalYears = 5`, one education entry, one work-experience entry, one skill, one preferred
location, a resume url, and a populated user with a profile image. -/
def nurseRecord : JobSeeker :=
  { JobSeeker.default "64b1f0c2a7d3e9001f2a4b6c" with
    user := .populated
      { firstName := .str "Asha", lastName := .str "Rao",
        profileImage := .str "https://cdn.example.com/asha.png" }
    title := .val "Nurse"
    bio := .val "..."
    specializations := .val ["Nursing"]
    experience :=
      { totalYears := .val 5, currentPosition := .undefined, currentCompany := .undefined,
        isCurrentlyEmployed := .val true }
    education := .val
      [{ degree := .val "BSc Nursing", field := .val "Nursing",
         institution := .val "AIIMS", yearOfCompletion := .val 2015, grade := .undefined }]
    workExperience := .val
      [{ position := .val "Staff Nurse", company := .val "City Hospital",
         location := .val "Pune", startDate := .val 1451606400000, endDate := .undefined,
         isCurrent := .val true, description := .undefined, achievements := .val [] }]
    skills := .val [{ name := .val "Triage", level := .val "Intermediate" }]
    jobPreferences :=
      { (JobSeeker.default "64b1f0c2a7d3e9001f2a4b6c").jobPreferences with
        preferredLocations := .val
          [{ city := .val "Pune", state := .val "Maharashtra", country := .val "India" }] }
    resume := .val
      { url := .val "https://cdn.example.com/resume.pdf", filename := .val "resume.pdf",
        uploadedAt := .undefined, publicId := .undefined, bytes := .undefined } }

/-- The document `r` with `experience.totalYears` set to `x`, every other path untouched. -/
def JobSeeker.withTotalYears (r : JobSeeker) (x : Js ℚ) : JobSeeker :=
  { r with experience := { r.experience with totalYears := x } }

/-- The document `r` after a caller assigned `x` to `profileCompletion`. -/
def JobSeeker.withProfileCompletion (r : JobSeeker) (x : Js ℚ) : JobSeeker :=
  { r with profileCompletion := x }

/-! ## The completion checks as the specification words them -/

/-- Modelled from the spec: the identity collaborator, which resolves a user identifier to the
user's `firstName`, `lastName` and `profileImage`, and to nothing when there is no such user.
The `User` model behind it is not part of the sources. -/
abbrev Identity := ObjectId → Option User

/-- The user identity linked to a record: the loaded document when the `user` path is
populated, and what the identity collaborator resolves when the path holds an object id. -/
def linkedUser (identity : Identity) : UserRef → Option User
  | .populated u => some u
  | .id oid => identity oid
  | .undefined => none
  | .null => none

/-- The linked user identity has a profile image set. -/
def LinkedUserHasProfileImage (identity : Identity) (user : UserRef) : Prop :=
  ∃ u : User, linkedUser identity user = some u ∧ u.profileImage.truthy = true

instance instDecidableLinkedUserHasProfileImage (identity : Identity) (user : UserRef) :
    Decidable (LinkedUserHasProfileImage identity user) :=
  match h : linkedUser identity user with
  | none => isFalse (fun ⟨_, h1, _⟩ => by rw [h] at h1; cases h1)
  | some u =>
    if ht : u.profileImage.truthy = true then isTrue ⟨u, h, ht⟩
    else isFalse (fun ⟨_, h1, h2⟩ => by rw [h] at h1; cases h1; exact ht h2)

/-- The ten checks of the completion algorithm as the specification words them, the tenth one
on the linked user identity. -/
def specCompletionChecks (identity : Identity) (r : JobSeeker) : List Bool :=
  [ decide (NonEmptyText r.title),
    decide (NonEmptyText r.bio),
    decide (HasAtLeastOneEntry r.specializations),
    decide (IsDefined r.experience.totalYears),
    decide (HasAtLeastOneEntry r.education),
    decide (HasAtLeastOneEntry r.workExperience),
    decide (HasAtLeastOneEntry r.skills),
    decide (HasAtLeastOneEntry r.jobPreferences.preferredLocations),
    decide (ResumeUrlPresent r.resume),
    decide (LinkedUserHasProfileImage identity r.user) ]

/-- The number of satisfied checks among the ten of the specification. -/
def specSatisfiedChecks (identity : Identity) (r : JobSeeker) : Nat :=
  (specCompletionChecks identity r).count true

/-- All ten checks of the specification are satisfied. -/
def SpecAllChecksSatisfied (identity : Identity) (r : JobSeeker) : Prop :=
  NonEmptyText r.title ∧ NonEmptyText r.bio ∧ HasAtLeastOneEntry r.specializations ∧
  IsDefined r.experience.totalYears ∧ HasAtLeastOneEntry r.education ∧
  HasAtLeastOneEntry r.workExperience ∧ HasAtLeastOneEntry r.skills ∧
  HasAtLeastOneEntry r.jobPreferences.preferredLocations ∧ ResumeUrlPresent r.resume ∧
  LinkedUserHasProfileImage identity r.user

instance instDecidableSpecAllChecksSatisfied (identity : Identity) (r : JobSeeker) :
    Decidable (SpecAllChecksSatisfied identity r) := by
  unfold SpecAllChecksSatisfied
  infer_instance

/-- An identity collaborator that knows one user, the one of the scenario record, who has a
profile image. -/
def scenarioIdentity : Identity :=
  fun oid =>
    if oid = "64b1f0c2a7d3e9001f2a4b6c" then
      some { firstName := .str "Asha", lastName := .str "Rao",
             profileImage := .str "https://cdn.example.com/asha.png" }
    else none

/-- The scenario record as a document is loaded without `populate`: its `user` path holds the
object id of the user, who has a profile image. -/
def unpopulatedNurseRecord : JobSeeker :=
  { nurseRecord with user := .id "64b1f0c2a7d3e9001f2a4b6c" }

/-! ## The conditions of the code are the checks read on the record -/

theorem String.ne_empty_iff_length_pos (s : String) : s ≠ "" ↔ 0 < s.length := by
  constructor
  · intro h
    rcases Nat.eq_zero_or_pos s.length with h0 | h0
    · exact absurd (String.ext (List.length_eq_zero.mp h0)) h
    · exact h0
  · intro h he
    rw [he] at h
    exact absurd h (by decide)

theorem truthyStr_eq_decide (x : Js String) : x.truthyStr = decide (NonEmptyText x) := by
  cases x with
  | undefined => rfl
  | null => rfl
  | val s =>
    by_cases h : 0 < s.length
    · have h1 : NonEmptyText (.val s) := ⟨s, rfl, h⟩
      have h2 : s ≠ "" := (String.ne_empty_iff_length_pos s).mpr h
      simp [Js.truthyStr, h1, h2]
    · have h1 : ¬ NonEmptyText (.val s) := fun ⟨_, e, hp⟩ => by cases e; exact h hp
      have h2 : ¬ s ≠ "" := fun hne => h ((String.ne_empty_iff_length_pos s).mp hne)
      simp only [Js.truthyStr, h1, h2, decide_False]

theorem truthyAndNonEmpty_eq_decide {α : Type} (x : Js (List α)) :
    x.truthyAndNonEmpty = decide (HasAtLeastOneEntry x) := by
  cases x with
  | undefined => rfl
  | null => rfl
  | val l =>
    cases l with
    | nil => rfl
    | cons a l =>
      have h1 : HasAtLeastOneEntry (.val (a :: l)) := ⟨a, l, rfl⟩
      simp [Js.truthyAndNonEmpty, Js.truthyObj, h1]

theorem neUndefined_eq_decide {α : Type} (x : Js α) :
    x.neUndefined = decide (IsDefined x) := by
  cases x <;> rfl

theorem resumeUrlTruthy_eq_decide (resume : Js DocumentFile) :
    resumeUrlTruthy resume = decide (ResumeUrlPresent resume) := by
  cases resume with
  | undefined => rfl
  | null => rfl
  | val d =>
    by_cases h : NonEmptyText d.url
    · have h1 : ResumeUrlPresent (.val d) := ⟨d, rfl, h⟩
      simp [resumeUrlTruthy, Js.truthyObj, truthyStr_eq_decide, h, h1]
    · have h1 : ¬ ResumeUrlPresent (.val d) := fun ⟨_, e, hp⟩ => by cases e; exact h hp
      simp [resumeUrlTruthy, Js.truthyObj, truthyStr_eq_decide, h, h1]

theorem userProfileImageTruthy_eq_decide (user : UserRef) :
    userProfileImageTruthy user = decide (LoadedUserHasProfileImage user) := by
  cases user with
  | undefined => rfl
  | null => rfl
  | id oid => rfl
  | populated u =>
    by_cases h : u.profileImage.truthy = true
    · have h1 : LoadedUserHasProfileImage (.populated u) := ⟨u, rfl, h⟩
      simp [userProfileImageTruthy, UserRef.truthy, UserRef.profileImage, h, h1]
    · have h1 : ¬ LoadedUserHasProfileImage (.populated u) :=
        fun ⟨_, e, hp⟩ => by cases e; exact h hp
      simp [userProfileImageTruthy, UserRef.truthy, UserRef.profileImage, h, h1]

/-- Ten guarded increments by ten add up to ten times the number of guards that hold. -/
theorem ten_guarded_increments (b1 b2 b3 b4 b5 b6 b7 b8 b9 b10 : Bool) :
    (let c := 0
     let c := if b1 = true then c + 10 else c
     let c := if b2 = true then c + 10 else c
     let c := if b3 = true then c + 10 else c
     let c := if b4 = true then c + 10 else c
     let c := if b5 = true then c + 10 else c
     let c := if b6 = true then c + 10 else c
     let c := if b7 = true then c + 10 else c
     let c := if b8 = true then c + 10 else c
     let c := if b9 = true then c + 10 else c
     let c := if b10 = true then c + 10 else c
     c) = 10 * [b1, b2, b3, b4, b5, b6, b7, b8, b9, b10].count true := by
  cases b1 <;> cases b2 <;> cases b3 <;> cases b4 <;> cases b5 <;>
    cases b6 <;> cases b7 <;> cases b8 <;> cases b9 <;> cases b10 <;> rfl

theorem count_true_le_length (l : List Bool) : l.count true ≤ l.length :=
  List.count_le_length true l

/-- The number returned by `calculateProfileCompletion` is ten times the number of satisfied
checks. -/
theorem calculateProfileCompletion_fst (r : JobSeeker) :
    (calculateProfileCompletion r).1 = 10 * satisfiedChecks r := by
  have h := ten_guarded_increments r.title.truthyStr r.bio.truthyStr
    r.specializations.truthyAndNonEmpty r.experience.totalYears.neUndefined
    r.education.truthyAndNonEmpty r.workExperience.truthyAndNonEmpty
    r.skills.truthyAndNonEmpty r.jobPreferences.preferredLocations.truthyAndNonEmpty
    (resumeUrlTruthy r.resume) (userProfileImageTruthy r.user)
  simp only [truthyStr_eq_decide, truthyAndNonEmpty_eq_decide, neUndefined_eq_decide,
    resumeUrlTruthy_eq_decide, userProfileImageTruthy_eq_decide] at h
  simp only [calculateProfileCompletion, satisfiedChecks, completionChecks,
    truthyStr_eq_decide, truthyAndNonEmpty_eq_decide, neUndefined_eq_decide,
    resumeUrlTruthy_eq_decide, userProfileImageTruthy_eq_decide]
  exact h

/-- The document left by `calculateProfileCompletion` is the input with `profileCompletion`
overwritten by the returned number. -/
theorem calculateProfileCompletion_snd (r : JobSeeker) :
    (calculateProfileCompletion r).2 =
      { r with profileCompletion := .val (((calculateProfileCompletion r).1 : Nat) : ℚ) } :=
  rfl

theorem satisfiedChecks_le_ten (r : JobSeeker) : satisfiedChecks r ≤ 10 :=
  count_true_le_length (completionChecks r)

/-- The number returned by `calculateProfileCompletion`, over the conditions of the code. -/
theorem calculateProfileCompletion_fst_conditions (r : JobSeeker) :
    (calculateProfileCompletion r).1 =
      10 * [r.title.truthyStr, r.bio.truthyStr, r.specializations.truthyAndNonEmpty,
        r.experience.totalYears.neUndefined, r.education.truthyAndNonEmpty,
        r.workExperience.truthyAndNonEmpty, r.skills.truthyAndNonEmpty,
        r.jobPreferences.preferredLocations.truthyAndNonEmpty, resumeUrlTruthy r.resume,
        userProfileImageTruthy r.user].count true :=
  ten_guarded_increments _ _ _ _ _ _ _ _ _ _

/-- A loaded user document with a profile image is a linked user identity with one. -/
theorem linked_of_loaded (identity : Identity) (user : UserRef)
    (h : LoadedUserHasProfileImage user) : LinkedUserHasProfileImage identity user := by
  obtain ⟨u, hu, ht⟩ := h
  exact ⟨u, by rw [hu]; rfl, ht⟩

/-- On a populated `user` path the two readings of check 10 agree. -/
theorem linked_populated_iff_loaded (identity : Identity) (u : User) :
    LinkedUserHasProfileImage identity (.populated u) ↔
      LoadedUserHasProfileImage (.populated u) := by
  constructor
  · rintro ⟨v, hv, ht⟩
    have hv2 : some u = some v := hv
    cases hv2
    exact ⟨u, rfl, ht⟩
  · exact linked_of_loaded identity _

/-- An object id that was not populated never satisfies check 10 read on the record. -/
theorem not_loaded_of_id (oid : ObjectId) : ¬ LoadedUserHasProfileImage (.id oid) :=
  fun ⟨_, h, _⟩ => by cases h

/-- The count of the specification exceeds the count read on the record by one exactly when
the linked user has a profile image and the `user` path does not hold the loaded document. -/
theorem specSatisfiedChecks_eq (identity : Identity) (r : JobSeeker) :
    specSatisfiedChecks identity r =
      satisfiedChecks r +
        (if LinkedUserHasProfileImage identity r.user ∧ ¬ LoadedUserHasProfileImage r.user
         then 1 else 0) := by
  unfold specSatisfiedChecks specCompletionChecks satisfiedChecks completionChecks
  generalize decide (NonEmptyText r.title) = b1
  generalize decide (NonEmptyText r.bio) = b2
  generalize decide (HasAtLeastOneEntry r.specializations) = b3
  generalize decide (IsDefined r.experience.totalYears) = b4
  generalize decide (HasAtLeastOneEntry r.education) = b5
  generalize decide (HasAtLeastOneEntry r.workExperience) = b6
  generalize decide (HasAtLeastOneEntry r.skills) = b7
  generalize decide (HasAtLeastOneEntry r.jobPreferences.preferredLocations) = b8
  generalize decide (ResumeUrlPresent r.resume) = b9
  by_cases hr : LoadedUserHasProfileImage r.user
  · have hs := linked_of_loaded identity r.user hr
    simp only [hr, hs, decide_True, not_true_eq_false, and_false, if_false, Nat.add_zero]
  · by_cases hs : LinkedUserHasProfileImage identity r.user
    · simp only [hr, hs, decide_True, decide_False, not_false_eq_true, and_self, if_true]
      cases b1 <;> cases b2 <;> cases b3 <;> cases b4 <;> cases b5 <;> cases b6 <;>
        cases b7 <;> cases b8 <;> cases b9 <;> rfl
    · simp only [hr, hs, decide_False, false_and, if_false, Nat.add_zero]

/-- A record that satisfies the ten checks of the specification satisfies ten of the checks
read on the record when its `user` path holds the loaded document, and nine otherwise. -/
theorem satisfiedChecks_of_specAll (identity : Identity) (r : JobSeeker)
    (h : SpecAllChecksSatisfied identity r) :
    satisfiedChecks r = if LoadedUserHasProfileImage r.user then 10 else 9 := by
  obtain ⟨h1, h2, h3, h4, h5, h6, h7, h8, h9, _⟩ := h
  by_cases hr : LoadedUserHasProfileImage r.user
  · simp [satisfiedChecks, completionChecks, h1, h2, h3, h4, h5, h6, h7, h8, h9, hr]
  · simp [satisfiedChecks, completionChecks, h1, h2, h3, h4, h5, h6, h7, h8, h9, hr]

/-! ## The claims on `calculateProfileCompletion` and the `pre('save')` hook -/

/-- Counterexample to C1 as stated: the scenario record whose `user` path holds the object id
of a user with a profile image satisfies all ten checks of the specification, yet
`calculateProfileCompletion` returns 90, not ten times ten. -/
theorem score_with_unpopulated_user_is_not_ten_times_checks :
    LinkedUserHasProfileImage scenarioIdentity unpopulatedNurseRecord.user ∧
    specSatisfiedChecks scenarioIdentity unpopulatedNurseRecord = 10 ∧
    (calculateProfileCompletion unpopulatedNurseRecord).1 = 90 ∧
    (calculateProfileCompletion unpopulatedNurseRecord).1 ≠
      10 * specSatisfiedChecks scenarioIdentity unpopulatedNurseRecord := by
  decide

/-- C1, amended. For every profile record, `calculateProfileCompletion` returns, and stores in
`profileCompletion` (also when run by the `pre('save')` hook), exactly ten times the number of
satisfied checks among the ten, where check 10 is read on the record alone: the `user` path
holds the loaded user document and its `profileImage` is truthy. Hence the result is one of
0, 10, 20, ..., 100. An object id that was not populated never satisfies check 10; on a
populated path check 10 is the check of the specification; and the score is ten times the
count of the specification, less 10 exactly when the linked user has a profile image and the
`user` path does not hold the loaded document. -/
theorem profileCompletion_eq_ten_times_satisfied_checks (identity : Identity)
    (r : JobSeeker) :
    (calculateProfileCompletion r).1 = 10 * satisfiedChecks r ∧
    (calculateProfileCompletion r).2.profileCompletion =
      .val ((10 * satisfiedChecks r : Nat) : ℚ) ∧
    (preSave r).profileCompletion = .val ((10 * satisfiedChecks r : Nat) : ℚ) ∧
    (completionChecks r).length = 10 ∧
    (calculateProfileCompletion r).1 ∈ [0, 10, 20, 30, 40, 50, 60, 70, 80, 90, 100] ∧
    (∀ oid : ObjectId, ¬ LoadedUserHasProfileImage (.id oid)) ∧
    (∀ u : User, LinkedUserHasProfileImage identity (.populated u) ↔
      LoadedUserHasProfileImage (.populated u)) ∧
    (calculateProfileCompletion r).1 +
        (if LinkedUserHasProfileImage identity r.user ∧ ¬ LoadedUserHasProfileImage r.user
         then 10 else 0) =
      10 * specSatisfiedChecks identity r := by
  have hfst := calculateProfileCompletion_fst r
  have hsnd := calculateProfileCompletion_snd r
  have hle := satisfiedChecks_le_ten r
  refine ⟨hfst, ?_, ?_, rfl, ?_, not_loaded_of_id, linked_populated_iff_loaded identity, ?_⟩
  · rw [hsnd, hfst]
  · unfold preSave
    rw [hsnd, hfst]
  · rw [hfst]
    generalize satisfiedChecks r = n at hle
    interval_cases n <;> decide
  · rw [hfst, specSatisfiedChecks_eq identity r]
    split_ifs <;> omega

/-- Counterexample to C2 as stated: the scenario record whose `user` path holds the object id
of a user with a profile image satisfies all ten checks of the specification and scores 90,
not 100. -/
theorem full_record_with_unpopulated_user_scores_90 :
    SpecAllChecksSatisfied scenarioIdentity unpopulatedNurseRecord ∧
    (calculateProfileCompletion unpopulatedNurseRecord).1 = 90 ∧
    (calculateProfileCompletion unpopulatedNurseRecord).2.profileCompletion = .val 90 ∧
    (calculateProfileCompletion unpopulatedNurseRecord).1 ≠ 100 := by
  refine ⟨by decide, by decide, ?_, by decide⟩
  rw [calculateProfileCompletion_snd]
  have h90 : (calculateProfileCompletion unpopulatedNurseRecord).1 = 90 := by decide
  rw [h90]
  norm_num

/-- C2, amended. A record that satisfies all ten checks of the specification scores exactly
100 when its `user` path holds the loaded user document, and exactly 90 when the path does not
(it then holds the object id of a user with a profile image); the record of the
specification's scenario, with its user populated, scores 100; the empty default record
scores 0. -/
theorem full_record_scores_100_and_default_scores_0 (identity : Identity) (r : JobSeeker)
    (h : SpecAllChecksSatisfied identity r) (oid : ObjectId) :
    (calculateProfileCompletion r).1 =
      (if LoadedUserHasProfileImage r.user then 100 else 90) ∧
    (calculateProfileCompletion r).2.profileCompletion =
      .val (if LoadedUserHasProfileImage r.user then 100 else 90) ∧
    (calculateProfileCompletion nurseRecord).1 = 100 ∧
    (calculateProfileCompletion (JobSeeker.default oid)).1 = 0 ∧
    (calculateProfileCompletion (JobSeeker.default oid)).2.profileCompletion = .val 0 := by
  have hscore : (calculateProfileCompletion r).1 =
      (if LoadedUserHasProfileImage r.user then 100 else 90) := by
    rw [calculateProfileCompletion_fst, satisfiedChecks_of_specAll identity r h]
    split_ifs <;> rfl
  refine ⟨hscore, ?_, ?_, ?_, ?_⟩
  · rw [calculateProfileCompletion_snd, hscore]
    split_ifs <;> norm_num
  · decide
  · rfl
  · rw [calculateProfileCompletion_snd]
    have h0 : (calculateProfileCompletion (JobSeeker.default oid)).1 = 0 := rfl
    rw [h0]
    norm_num

/-- Witness of C2: the scenario record, with its user populated, satisfies all ten checks of
the specification, and the theorem applies to it. -/
theorem full_record_scores_100_and_default_scores_0_witness :
    SpecAllChecksSatisfied scenarioIdentity nurseRecord ∧
    LoadedUserHasProfileImage nurseRecord.user ∧
    (calculateProfileCompletion nurseRecord).1 = 100 ∧
    (calculateProfileCompletion (JobSeeker.default "64b1f0c2a7d3e9001f2a4b6c")).1 = 0 :=
  ⟨by decide, by decide,
   ((full_record_scores_100_and_default_scores_0 scenarioIdentity nurseRecord (by decide)
      "64b1f0c2a7d3e9001f2a4b6c").1).trans (by decide),
   (full_record_scores_100_and_default_scores_0 scenarioIdentity nurseRecord (by decide)
      "64b1f0c2a7d3e9001f2a4b6c").2.2.2.1⟩

/-- C3. Check 4 is satisfied when `experience.totalYears` is 0 and not satisfied when it is
`undefined`: of two records that differ only in `totalYears` being 0 versus `undefined`, the
first scores exactly 10 more than the second. -/
theorem totalYears_zero_counts_undefined_does_not (r : JobSeeker) :
    IsDefined (r.withTotalYears (.val 0)).experience.totalYears ∧
    ¬ IsDefined (r.withTotalYears .undefined).experience.totalYears ∧
    (calculateProfileCompletion (r.withTotalYears (.val 0))).1 =
      (calculateProfileCompletion (r.withTotalYears .undefined)).1 + 10 := by
  refine ⟨(fun h => by cases h), (fun h => h rfl), ?_⟩
  rw [calculateProfileCompletion_fst_conditions, calculateProfileCompletion_fst_conditions]
  simp only [JobSeeker.withTotalYears, Js.neUndefined]
  generalize r.title.truthyStr = b1
  generalize r.bio.truthyStr = b2
  generalize r.specializations.truthyAndNonEmpty = b3
  generalize r.education.truthyAndNonEmpty = b5
  generalize r.workExperience.truthyAndNonEmpty = b6
  generalize r.skills.truthyAndNonEmpty = b7
  generalize r.jobPreferences.preferredLocations.truthyAndNonEmpty = b8
  generalize resumeUrlTruthy r.resume = b9
  generalize userProfileImageTruthy r.user = b10
  cases b1 <;> cases b2 <;> cases b3 <;> cases b5 <;> cases b6 <;> cases b7 <;>
    cases b8 <;> cases b9 <;> cases b10 <;> rfl

/-- C4. `calculateProfileCompletion` is idempotent: run on the record produced by a first
run, it returns the same value as the first run and leaves that record unchanged. -/
theorem calculateProfileCompletion_idempotent (r : JobSeeker) :
    (calculateProfileCompletion (calculateProfileCompletion r).2).1 =
      (calculateProfileCompletion r).1 ∧
    (calculateProfileCompletion (calculateProfileCompletion r).2).2 =
      (calculateProfileCompletion r).2 ∧
    preSave (preSave r) = preSave r :=
  ⟨rfl, rfl, rfl⟩

/-- C5. The stored `profileCompletion` is not caller-controlled: whatever value a caller
assigned to `profileCompletion` beforehand, after the `pre('save')` hook it is the completion
score of the other fields, so two records that differ only in their prior `profileCompletion`
end with the same `profileCompletion`. -/
theorem preSave_overwrites_profileCompletion (r : JobSeeker) (v w : Js ℚ) :
    (preSave (r.withProfileCompletion v)).profileCompletion =
      .val ((10 * satisfiedChecks r : Nat) : ℚ) ∧
    (preSave (r.withProfileCompletion v)).profileCompletion =
      (preSave (r.withProfileCompletion w)).profileCompletion ∧
    preSave (r.withProfileCompletion v) = preSave (r.withProfileCompletion w) := by
  refine ⟨?_, rfl, rfl⟩
  have h : preSave (r.withProfileCompletion v) = preSave r := rfl
  rw [h]
  unfold preSave
  rw [calculateProfileCompletion_snd, calculateProfileCompletion_fst]

/-- C6. `calculateProfileCompletion`, and therefore the `pre('save')` hook, changes no field
of the record other than `profileCompletion`. -/
theorem calculateProfileCompletion_frame (r : JobSeeker) :
    ((calculateProfileCompletion r).2.user = r.user ∧
     (calculateProfileCompletion r).2.title = r.title ∧
     (calculateProfileCompletion r).2.bio = r.bio ∧
     (calculateProfileCompletion r).2.specializations = r.specializations ∧
     (calculateProfileCompletion r).2.experience = r.experience ∧
     (calculateProfileCompletion r).2.education = r.education ∧
     (calculateProfileCompletion r).2.workExperience = r.workExperience ∧
     (calculateProfileCompletion r).2.skills = r.skills ∧
     (calculateProfileCompletion r).2.certifications = r.certifications ∧
     (calculateProfileCompletion r).2.jobPreferences = r.jobPreferences ∧
     (calculateProfileCompletion r).2.resume = r.resume ∧
     (calculateProfileCompletion r).2.coverLetter = r.coverLetter ∧
     (calculateProfileCompletion r).2.portfolio = r.portfolio ∧
     (calculateProfileCompletion r).2.privacySettings = r.privacySettings ∧
     (calculateProfileCompletion r).2.stats = r.stats) ∧
    (calculateProfileCompletion r).2 =
      r.withProfileCompletion (calculateProfileCompletion r).2.profileCompletion ∧
    preSave r = r.withProfileCompletion (preSave r).profileCompletion :=
  ⟨⟨rfl, rfl, rfl, rfl, rfl, rfl, rfl, rfl, rfl, rfl, rfl, rfl, rfl, rfl, rfl⟩, rfl, rfl⟩

/-! ## The claims on the date validators -/

/-- C7. The `workExperience` `endDate` validator accepts an entry with a present `endDate`
(and its required `startDate`) if and only if `endDate >= startDate`: an `endDate` one day
before `startDate` is rejected, an `endDate` equal to `startDate` is accepted, and an absent
`endDate` (`undefined` or `null`) is always accepted. -/
theorem workExperience_endDate_validator (w : WorkExperience) (s e : Date) :
    (({ w with startDate := .val s, endDate := .val e } : WorkExperience).endDateAccepted = true
      ↔ s ≤ e) ∧
    ({ w with startDate := .val s, endDate := .val (s - msPerDay) } :
      WorkExperience).endDateAccepted = false ∧
    ({ w with startDate := .val s, endDate := .val s } : WorkExperience).endDateAccepted = true ∧
    ({ w with endDate := .undefined } : WorkExperience).endDateAccepted = true ∧
    ({ w with endDate := .null } : WorkExperience).endDateAccepted = true := by
  refine ⟨?_, ?_, ?_, rfl, rfl⟩
  · simp [WorkExperience.endDateAccepted, workExperienceEndDateValidator, Js.truthyObj,
      Js.toNumber, jsGe]
  · simp [WorkExperience.endDateAccepted, workExperienceEndDateValidator, Js.truthyObj,
      Js.toNumber, jsGe, msPerDay]
  · simp [WorkExperience.endDateAccepted, workExperienceEndDateValidator, Js.truthyObj,
      Js.toNumber, jsGe]

/-- C8. The `certifications` `expiryDate` validator accepts an entry with a present
`expiryDate` (and its required `issueDate`) if and only if `expiryDate >= issueDate`: an
`expiryDate` equal to `issueDate` is accepted, an `expiryDate` one day before `issueDate` is
rejected, and an absent `expiryDate` (`undefined` or `null`) is always accepted. -/
theorem certification_expiryDate_validator (c : Certification) (i e : Date) :
    (({ c with issueDate := .val i, expiryDate := .val e } : Certification).expiryDateAccepted
      = true ↔ i ≤ e) ∧
    ({ c with issueDate := .val i, expiryDate := .val i } :
      Certification).expiryDateAccepted = true ∧
    ({ c with issueDate := .val i, expiryDate := .val (i - msPerDay) } :
      Certification).expiryDateAccepted = false ∧
    ({ c with expiryDate := .undefined } : Certification).expiryDateAccepted = true ∧
    ({ c with expiryDate := .null } : Certification).expiryDateAccepted = true := by
  refine ⟨?_, ?_, ?_, rfl, rfl⟩
  · simp [Certification.expiryDateAccepted, certificationExpiryDateValidator, Js.truthyObj,
      Js.toNumber, jsGe]
  · simp [Certification.expiryDateAccepted, certificationExpiryDateValidator, Js.truthyObj,
      Js.toNumber, jsGe]
  · simp [Certification.expiryDateAccepted, certificationExpiryDateValidator, Js.truthyObj,
      Js.toNumber, jsGe, msPerDay]

/-! ## The claims on the rendered messages -/

set_option maxRecDepth 100000 in
/-- The text before the first `${verificationUrl}` ends by opening the `href` attribute of the button. -/
theorem verificationHtmlB_ends_with_href : ∃ p : String, verificationHtmlB = p ++ "<a href=\"" :=
  ⟨String.mk (verificationHtmlB.data.take (verificationHtmlB.data.length - 9)), by decide⟩

set_option maxRecDepth 100000 in
/-- The text after the first `${verificationUrl}` starts by closing the `href` attribute. -/
theorem verificationHtmlC_starts_with_quote : ∃ q : String, verificationHtmlC = "\"" ++ q :=
  ⟨String.mk (verificationHtmlC.data.drop 1), by decide⟩

set_option maxRecDepth 100000 in
/-- The text before the second `${verificationUrl}` ends by opening the paragraph of the plain-text link. -/
theorem verificationHtmlC_ends_with_paragraph : ∃ p : String, verificationHtmlC = p ++ "<p style=\"color: #667eea; word-break: break-all; background: #f0f0f0; padding: 10px; border-radius: 5px;\">\n              " :=
  ⟨String.mk (verificationHtmlC.data.take (verificationHtmlC.data.length - 121)), by decide⟩

set_option maxRecDepth 100000 in
/-- The text after the second `${verificationUrl}` starts by closing the paragraph of the plain-text link. -/
theorem verificationHtmlD_starts_with_paragraph_end : ∃ q : String, verificationHtmlD = "\n            </p>" ++ q :=
  ⟨String.mk (verificationHtmlD.data.drop 17), by decide⟩

set_option maxRecDepth 100000 in
/-- The text before the first `${resetUrl}` ends by opening the `href` attribute of the button. -/
theorem passwordResetHtmlB_ends_with_href : ∃ p : String, passwordResetHtmlB = p ++ "<a href=\"" :=
  ⟨String.mk (passwordResetHtmlB.data.take (passwordResetHtmlB.data.length - 9)), by decide⟩

set_option maxRecDepth 100000 in
/-- The text after the first `${resetUrl}` starts by closing the `href` attribute. -/
theorem passwordResetHtmlC_starts_with_quote : ∃ q : String, passwordResetHtmlC = "\"" ++ q :=
  ⟨String.mk (passwordResetHtmlC.data.drop 1), by decide⟩

set_option maxRecDepth 100000 in
/-- The text before the second `${resetUrl}` ends by opening the paragraph of the plain-text link. -/
theorem passwordResetHtmlC_ends_with_paragraph : ∃ p : String, passwordResetHtmlC = p ++ "<p style=\"color: #667eea; word-break: break-all; background: #f0f0f0; padding: 10px; border-radius: 5px;\">\n              " :=
  ⟨String.mk (passwordResetHtmlC.data.take (passwordResetHtmlC.data.length - 121)), by decide⟩

set_option maxRecDepth 100000 in
/-- The text after the second `${resetUrl}` starts by closing the paragraph of the plain-text link. -/
theorem passwordResetHtmlD_starts_with_paragraph_end : ∃ q : String, passwordResetHtmlD = "\n            </p>" ++ q :=
  ⟨String.mk (passwordResetHtmlD.data.drop 17), by decide⟩

/-- C9. For every base URL `b` and token `t`, the message built by `sendVerificationEmail`
(the one message it submits to the transport) carries the verification link
`b ++ "/verify-email/" ++ t` verbatim, once as the `href` of the button and once as the
plain-text link, and `b` and `t` enter the body nowhere else; with token "abc123" and base URL
"https://example.com" the link is exactly "https://example.com/verify-email/abc123". -/
theorem verification_link_exact {ε ρ : Type} (sendMail : MailOptions → Except ε ρ)
    (emailFrom : Option String) (email firstName : Js String) (b t : String) :
    verificationUrl ⟨some b, emailFrom⟩ (.val t) = b ++ "/verify-email/" ++ t ∧
    (sendVerificationEmail ⟨some b, emailFrom⟩ sendMail email (.val t) firstName).submitted =
      [verificationMailOptions ⟨some b, emailFrom⟩ email (.val t) firstName] ∧
    (verificationMailOptions ⟨some b, emailFrom⟩ email (.val t) firstName).html =
      verificationHtmlA ++ firstName.tmpl ++ verificationHtmlB ++
        (b ++ "/verify-email/" ++ t) ++ verificationHtmlC ++
        (b ++ "/verify-email/" ++ t) ++ verificationHtmlD ∧
    (∃ p : String, verificationHtmlB = p ++ "<a href=\"") ∧
    (∃ q : String, verificationHtmlC = "\"" ++ q) ∧
    (∃ p : String, verificationHtmlC = p ++ "<p style=\"color: #667eea; word-break: break-all; background: #f0f0f0; padding: 10px; border-radius: 5px;\">\n              ") ∧
    (∃ q : String, verificationHtmlD = "\n            </p>" ++ q) ∧
    verificationUrl ⟨some "https://example.com", emailFrom⟩ (.val "abc123") =
      "https://example.com/verify-email/abc123" := by
  refine ⟨rfl, ?_, rfl, verificationHtmlB_ends_with_href, verificationHtmlC_starts_with_quote,
    verificationHtmlC_ends_with_paragraph, verificationHtmlD_starts_with_paragraph_end, ?_⟩
  · unfold sendVerificationEmail submit
    cases sendMail (verificationMailOptions ⟨some b, emailFrom⟩ email (.val t) firstName) <;> rfl
  · simp only [verificationUrl, envTmpl, Js.tmpl]
    decide

/-- C10. For every base URL `b` and token `t`, the message built by `sendPasswordResetEmail`
(the one message it submits to the transport) carries the reset link
`b ++ "/reset-password/" ++ t` verbatim, once as the `href` of the button and once as the
plain-text link, and its recipient is the `email` argument. -/
theorem passwordReset_link_exact {ε ρ : Type} (sendMail : MailOptions → Except ε ρ)
    (emailFrom : Option String) (email firstName : Js String) (b t : String) :
    resetUrl ⟨some b, emailFrom⟩ (.val t) = b ++ "/reset-password/" ++ t ∧
    (sendPasswordResetEmail ⟨some b, emailFrom⟩ sendMail email (.val t) firstName).submitted =
      [passwordResetMailOptions ⟨some b, emailFrom⟩ email (.val t) firstName] ∧
    (passwordResetMailOptions ⟨some b, emailFrom⟩ email (.val t) firstName).html =
      passwordResetHtmlA ++ firstName.tmpl ++ passwordResetHtmlB ++
        (b ++ "/reset-password/" ++ t) ++ passwordResetHtmlC ++
        (b ++ "/reset-password/" ++ t) ++ passwordResetHtmlD ∧
    (∃ p : String, passwordResetHtmlB = p ++ "<a href=\"") ∧
    (∃ q : String, passwordResetHtmlC = "\"" ++ q) ∧
    (∃ p : String, passwordResetHtmlC = p ++ "<p style=\"color: #667eea; word-break: break-all; background: #f0f0f0; padding: 10px; border-radius: 5px;\">\n              ") ∧
    (∃ q : String, passwordResetHtmlD = "\n            </p>" ++ q) ∧
    (passwordResetMailOptions ⟨some b, emailFrom⟩ email (.val t) firstName).«to» = email := by
  refine ⟨rfl, ?_, rfl, passwordResetHtmlB_ends_with_href, passwordResetHtmlC_starts_with_quote,
    passwordResetHtmlC_ends_with_paragraph, passwordResetHtmlD_starts_with_paragraph_end, rfl⟩
  unfold sendPasswordResetEmail submit
  cases sendMail (passwordResetMailOptions ⟨some b, emailFrom⟩ email (.val t) firstName) <;> rfl

/-! ## The claims on the three other senders -/

/-- Counterexample to C11 as stated: with `meetingLink` omitted and a `notes` text that is
itself markup, the rendered body contains the "Meeting Link:" heading once, inside the very
paragraph the template emits for the link "https://meet.example/x". -/
theorem interview_body_has_meeting_link_section_without_meetingLink :
    markupNotesDetails.meetingLink = .undefined ∧
    occurrences (scenarioBody markupNotesDetails) meetingLinkMarker = 1 ∧
    occurrences (scenarioBody markupNotesDetails)
      (meetingLinkSection (.val "https://meet.example/x")) = 1 := by
  decide!

/-- C11, amended. The body of the interview invitation has one slot for each of the location,
meeting-link and notes sections, and the rest of the body does not depend on the field of the
slot. A slot is empty when its field is `undefined`, `null` or the empty string, and holds the
one paragraph of the field otherwise. On the scenario input, whose other fields are plain text,
the body contains the "Meeting Link:" heading no times without a `meetingLink` and once with
one, and likewise for the location and notes headings. -/
theorem interview_sections_follow_truthiness (host : Host) (env : Env)
    (candidateEmail candidateName jobTitle companyName : Js String) (d : InterviewDetails) :
    (∃ pre post : String, ∀ m : Js String,
      (interviewMailOptions host env candidateEmail candidateName jobTitle companyName
        { d with meetingLink := m }).html = pre ++ meetingLinkSection m ++ post) ∧
    (∃ pre post : String, ∀ l : Js String,
      (interviewMailOptions host env candidateEmail candidateName jobTitle companyName
        { d with location := l }).html = pre ++ locationSection l ++ post) ∧
    (∃ pre post : String, ∀ n : Js String,
      (interviewMailOptions host env candidateEmail candidateName jobTitle companyName
        { d with notes := n }).html = pre ++ notesSection n ++ post) ∧
    (meetingLinkSection .undefined = "" ∧ meetingLinkSection .null = "" ∧
      ∀ s : String, meetingLinkSection (.val s) =
        if s = "" then ""
        else "<p style=\"margin: 5px 0;\"><strong>Meeting Link:</strong> <a href=\"" ++ s ++
          "\">" ++ s ++ "</a></p>") ∧
    (locationSection .undefined = "" ∧ locationSection .null = "" ∧
      ∀ s : String, locationSection (.val s) =
        if s = "" then ""
        else "<p style=\"margin: 5px 0;\"><strong>Location:</strong> " ++ s ++ "</p>") ∧
    (notesSection .undefined = "" ∧ notesSection .null = "" ∧
      ∀ s : String, notesSection (.val s) =
        if s = "" then ""
        else "<p style=\"margin: 5px 0;\"><strong>Notes:</strong> " ++ s ++ "</p>") ∧
    (occurrences (scenarioBody scenarioDetails) meetingLinkMarker = 0 ∧
      occurrences (scenarioBody { scenarioDetails with meetingLink := .val "https://meet.example/x" })
        meetingLinkMarker = 1) ∧
    (occurrences (scenarioBody scenarioDetails) locationMarker = 0 ∧
      occurrences (scenarioBody { scenarioDetails with location := .val "Ward 3, City Hospital" })
        locationMarker = 1) ∧
    (occurrences (scenarioBody scenarioDetails) notesMarker = 0 ∧
      occurrences (scenarioBody { scenarioDetails with notes := .val "Bring your licence" })
        notesMarker = 1) := by
  refine ⟨?_, ?_, ?_, ⟨rfl, rfl, ?_⟩, ⟨rfl, rfl, ?_⟩, ⟨rfl, rfl, ?_⟩, ?_, ?_, ?_⟩
  · refine ⟨interviewHtmlA ++ candidateName.tmpl ++ interviewHtmlB ++ jobTitle.tmpl ++
      interviewHtmlC ++ companyName.tmpl ++ interviewHtmlD ++ host.localeDate d.date ++
      interviewHtmlE ++ d.time.tmpl ++ interviewHtmlF ++ d.type.tmpl ++ interviewHtmlG ++
      locationSection d.location ++ interviewHtmlH,
      interviewHtmlI ++ notesSection d.notes ++ interviewHtmlJ ++ envTmpl env.FRONTEND_URL ++
      interviewHtmlK, fun m => ?_⟩
    simp only [interviewMailOptions, String.append_assoc]
  · refine ⟨interviewHtmlA ++ candidateName.tmpl ++ interviewHtmlB ++ jobTitle.tmpl ++
      interviewHtmlC ++ companyName.tmpl ++ interviewHtmlD ++ host.localeDate d.date ++
      interviewHtmlE ++ d.time.tmpl ++ interviewHtmlF ++ d.type.tmpl ++ interviewHtmlG,
      interviewHtmlH ++ meetingLinkSection d.meetingLink ++ interviewHtmlI ++
      notesSection d.notes ++ interviewHtmlJ ++ envTmpl env.FRONTEND_URL ++ interviewHtmlK,
      fun l => ?_⟩
    simp only [interviewMailOptions, String.append_assoc]
  · refine ⟨interviewHtmlA ++ candidateName.tmpl ++ interviewHtmlB ++ jobTitle.tmpl ++
      interviewHtmlC ++ companyName.tmpl ++ interviewHtmlD ++ host.localeDate d.date ++
      interviewHtmlE ++ d.time.tmpl ++ interviewHtmlF ++ d.type.tmpl ++ interviewHtmlG ++
      locationSection d.location ++ interviewHtmlH ++ meetingLinkSection d.meetingLink ++
      interviewHtmlI,
      interviewHtmlJ ++ envTmpl env.FRONTEND_URL ++ interviewHtmlK, fun n => ?_⟩
    simp only [interviewMailOptions, String.append_assoc]
  · intro s
    by_cases h : s = "" <;> simp [meetingLinkSection, Js.truthyStr, Js.tmpl, h]
  · intro s
    by_cases h : s = "" <;> simp [locationSection, Js.truthyStr, Js.tmpl, h]
  · intro s
    by_cases h : s = "" <;> simp [notesSection, Js.truthyStr, Js.tmpl, h]
  · decide!
  · decide!
  · decide!

theorem append_ne_append_left (b x y : String) (h : x ≠ y) : b ++ x ≠ b ++ y := by
  intro he
  apply h
  have hd : (b ++ x).data = (b ++ y).data := by rw [he]
  rw [String.data_append, String.data_append] at hd
  exact String.ext (List.append_cancel_left hd)

theorem submit_submitted {ε ρ : Type} (sendMail : MailOptions → Except ε ρ)
    (mailOptions : MailOptions) : (submit sendMail mailOptions).submitted = [mailOptions] := by
  unfold submit
  cases sendMail mailOptions <;> rfl

theorem submit_result {ε ρ : Type} (sendMail : MailOptions → Except ε ρ)
    (mailOptions : MailOptions) : (submit sendMail mailOptions).result = sendMail mailOptions := by
  unfold submit
  cases sendMail mailOptions <;> rfl

set_option maxRecDepth 100000 in
/-- The text before `${dashboardUrl}` ends by opening the `href` attribute of the button. -/
theorem welcomeHtmlD_ends_with_href : ∃ p : String, welcomeHtmlD = p ++ "<a href=\"" :=
  ⟨String.mk (welcomeHtmlD.data.take (welcomeHtmlD.data.length - 9)), by decide⟩

set_option maxRecDepth 100000 in
/-- The text after `${dashboardUrl}` starts by closing the `href` attribute. -/
theorem welcomeHtmlE_starts_with_quote : ∃ q : String, welcomeHtmlE = "\"" ++ q :=
  ⟨String.mk (welcomeHtmlE.data.drop 1), by decide⟩

theorem jobseekerNextSteps_ne_employerNextSteps : jobseekerNextSteps ≠ employerNextSteps := by
  decide!

/-- C12. The message built by `sendWelcomeEmail` is role-conditional: for role "jobseeker" the
dashboard link is the base URL followed by "/jobseeker/dashboard" and the next-steps list is
the job-seeker list; for role "employer" the link is the base URL followed by
"/employer/dashboard" and the list is the employer list; for every role the link and the list
are those of one and the same role, and the two links and the two lists differ. The message
is the one message that `sendWelcomeEmail` submits to the transport. -/
theorem welcome_is_role_conditional {ε ρ : Type} (sendMail : MailOptions → Except ε ρ)
    (emailFrom : Option String) (b : String) (email firstName role : Js String) :
    (sendWelcomeEmail ⟨some b, emailFrom⟩ sendMail email firstName role).submitted =
      [welcomeMailOptions ⟨some b, emailFrom⟩ email firstName role] ∧
    (dashboardUrl ⟨some b, emailFrom⟩ (.val "jobseeker") = b ++ "/jobseeker/dashboard" ∧
      welcomeNextSteps (.val "jobseeker") = jobseekerNextSteps) ∧
    (dashboardUrl ⟨some b, emailFrom⟩ (.val "employer") = b ++ "/employer/dashboard" ∧
      welcomeNextSteps (.val "employer") = employerNextSteps) ∧
    (welcomeMailOptions ⟨some b, emailFrom⟩ email firstName role).html =
      welcomeHtmlA ++ firstName.tmpl ++ welcomeHtmlB ++ welcomeReadyText role ++
        welcomeHtmlC ++ welcomeNextSteps role ++ welcomeHtmlD ++
        dashboardUrl ⟨some b, emailFrom⟩ role ++ welcomeHtmlE ∧
    ((dashboardUrl ⟨some b, emailFrom⟩ role = b ++ "/jobseeker/dashboard" ∧
        welcomeNextSteps role = jobseekerNextSteps) ∨
      (dashboardUrl ⟨some b, emailFrom⟩ role = b ++ "/employer/dashboard" ∧
        welcomeNextSteps role = employerNextSteps)) ∧
    b ++ "/jobseeker/dashboard" ≠ b ++ "/employer/dashboard" ∧
    jobseekerNextSteps ≠ employerNextSteps ∧
    (∃ p : String, welcomeHtmlD = p ++ "<a href=\"") ∧
    (∃ q : String, welcomeHtmlE = "\"" ++ q) := by
  refine ⟨submit_submitted _ _, ⟨?_, ?_⟩, ⟨?_, ?_⟩, rfl, ?_,
    append_ne_append_left b _ _ (by decide),
    jobseekerNextSteps_ne_employerNextSteps, welcomeHtmlD_ends_with_href,
    welcomeHtmlE_starts_with_quote⟩
  · simp [dashboardUrl, Js.strictEqStr, envTmpl]
  · simp [welcomeNextSteps, Js.strictEqStr]
  · simp [dashboardUrl, Js.strictEqStr, envTmpl]
  · simp [welcomeNextSteps, Js.strictEqStr]
  · by_cases h : role.strictEqStr "jobseeker" = true
    · left
      simp [dashboardUrl, welcomeNextSteps, h, envTmpl]
    · right
      simp [dashboardUrl, welcomeNextSteps, h, envTmpl]

/-- C13. For each of the five senders the caller's outcome is the transport's outcome: the
sender returns the result of `sendMail` unchanged when `sendMail` succeeds, and fails with the
error of `sendMail` when `sendMail` fails. -/
theorem senders_return_transport_outcome {ε ρ : Type} (host : Host) (env : Env)
    (sendMail : MailOptions → Except ε ρ) (a b c d e : Js String)
    (details : InterviewDetails) :
    (sendVerificationEmail env sendMail a b c).result =
      sendMail (verificationMailOptions env a b c) ∧
    (sendPasswordResetEmail env sendMail a b c).result =
      sendMail (passwordResetMailOptions env a b c) ∧
    (sendApplicationNotificationEmail host env sendMail a b c d e).result =
      sendMail (applicationMailOptions host env a b c d e) ∧
    (sendInterviewInvitationEmail host env sendMail a b c d (.val details)).result =
      (sendMail (interviewMailOptions host env a b c d details)).mapError Thrown.transport ∧
    (sendWelcomeEmail env sendMail a b c).result =
      sendMail (welcomeMailOptions env a b c) := by
  refine ⟨submit_result _ _, submit_result _ _, submit_result _ _, ?_, submit_result _ _⟩
  simp only [sendInterviewInvitationEmail]
  cases sendMail (interviewMailOptions host env a b c d details) <;> rfl

/-- Counterexample to C14 as stated: `sendVerificationEmail` called with an undefined
recipient and an undefined token does not fail before the transport; it submits one message,
addressed to `undefined` and linking to ".../verify-email/undefined", and returns what the
transport returns. -/
theorem sendVerificationEmail_submits_with_missing_inputs :
    (sendVerificationEmail scenarioEnv acceptAll .undefined .undefined (.val "Asha")).submitted
      = [verificationMailOptions scenarioEnv .undefined .undefined (.val "Asha")] ∧
    (sendVerificationEmail scenarioEnv acceptAll .undefined .undefined (.val "Asha")).result
      = .ok "<1@mail.example>" ∧
    (verificationMailOptions scenarioEnv .undefined .undefined (.val "Asha")).«to»
      = .undefined ∧
    verificationUrl scenarioEnv .undefined = "https://example.com/verify-email/undefined" := by
  refine ⟨rfl, rfl, rfl, ?_⟩
  decide

/-- C14, amended. The senders do not validate their inputs. Whatever the arguments, missing
ones included, `sendVerificationEmail`, `sendPasswordResetEmail`,
`sendApplicationNotificationEmail` and `sendWelcomeEmail` submit exactly one message to the
transport, in which a missing string is rendered as the text "undefined" and a missing
recipient is passed on as it is; so does `sendInterviewInvitationEmail` when `interviewDetails`
is an object. Only when `interviewDetails` itself is `undefined` or `null` does a sender fail
before any submission. -/
theorem senders_submit_without_validation {ε ρ : Type} (host : Host) (env : Env)
    (sendMail : MailOptions → Except ε ρ) (a b c d e : Js String)
    (details : InterviewDetails) :
    (sendVerificationEmail env sendMail a b c).submitted =
      [verificationMailOptions env a b c] ∧
    (sendPasswordResetEmail env sendMail a b c).submitted =
      [passwordResetMailOptions env a b c] ∧
    (sendApplicationNotificationEmail host env sendMail a b c d e).submitted =
      [applicationMailOptions host env a b c d e] ∧
    (sendWelcomeEmail env sendMail a b c).submitted = [welcomeMailOptions env a b c] ∧
    (sendInterviewInvitationEmail host env sendMail a b c d (.val details)).submitted =
      [interviewMailOptions host env a b c d details] ∧
    ((sendInterviewInvitationEmail host env sendMail a b c d .undefined).submitted = [] ∧
      (sendInterviewInvitationEmail host env sendMail a b c d .undefined).result =
        .error .typeError) ∧
    ((sendInterviewInvitationEmail host env sendMail a b c d .null).submitted = [] ∧
      (sendInterviewInvitationEmail host env sendMail a b c d .null).result =
        .error .typeError) ∧
    verificationUrl env .undefined = envTmpl env.FRONTEND_URL ++ "/verify-email/" ++ "undefined" ∧
    resetUrl env .undefined = envTmpl env.FRONTEND_URL ++ "/reset-password/" ++ "undefined" ∧
    (verificationMailOptions env .undefined b c).«to» = .undefined ∧
    (Js.tmpl .undefined = "undefined") := by
  refine ⟨submit_submitted _ _, submit_submitted _ _, submit_submitted _ _,
    submit_submitted _ _, ?_, ⟨rfl, rfl⟩, ⟨rfl, rfl⟩, rfl, rfl, rfl, rfl⟩
  simp only [sendInterviewInvitationEmail]
  cases sendMail (interviewMailOptions host env a b c d details) <;> rfl

/-- C16. `calculateProfileCompletion` compares `experience.totalYears` with `undefined` only,
so a `totalYears` that is `null` still counts for check 4: for any record, `totalYears` being
`null` instead of `undefined` raises the score by exactly 10. -/
theorem totalYears_null_counts_as_satisfied (r : JobSeeker) :
    (r.withTotalYears .null).experience.totalYears.neUndefined = true ∧
    (r.withTotalYears .undefined).experience.totalYears.neUndefined = false ∧
    (calculateProfileCompletion (r.withTotalYears .null)).1 =
      (calculateProfileCompletion (r.withTotalYears .undefined)).1 + 10 ∧
    (preSave (r.withTotalYears .null)).profileCompletion =
      .val ((((calculateProfileCompletion (r.withTotalYears .undefined)).1 + 10 : Nat)) : ℚ) := by
  have key : (calculateProfileCompletion (r.withTotalYears .null)).1 =
      (calculateProfileCompletion (r.withTotalYears .undefined)).1 + 10 := by
    rw [calculateProfileCompletion_fst_conditions, calculateProfileCompletion_fst_conditions]
    simp only [JobSeeker.withTotalYears, Js.neUndefined]
    generalize r.title.truthyStr = b1
    generalize r.bio.truthyStr = b2
    generalize r.specializations.truthyAndNonEmpty = b3
    generalize r.education.truthyAndNonEmpty = b5
    generalize r.workExperience.truthyAndNonEmpty = b6
    generalize r.skills.truthyAndNonEmpty = b7
    generalize r.jobPreferences.preferredLocations.truthyAndNonEmpty = b8
    generalize resumeUrlTruthy r.resume = b9
    generalize userProfileImageTruthy r.user = b10
    cases b1 <;> cases b2 <;> cases b3 <;> cases b5 <;> cases b6 <;> cases b7 <;>
      cases b8 <;> cases b9 <;> cases b10 <;> rfl
  refine ⟨rfl, rfl, key, ?_⟩
  unfold preSave
  rw [calculateProfileCompletion_snd, key]

/-! ## The claim on the `stats` counters -/

theorem validate_default (ctx : SchemaContext) (oid : ObjectId) :
    validate ctx (JobSeeker.default oid) = true := by
  simp [validate, JobSeeker.default, requiredRef, maxlength, eachOf, validateExperience, minOf,
    maxOf, validateJobPreferences, validateStats, statsValidators, enumOf, currencyValues,
    periodValues, availabilityValues, remoteWorkPreferenceValues]

theorem validateStats_true (s : Stats) : validateStats s = true := rfl

/-- Counterexample to C15 as stated: the default record with `stats.profileViews` set to `-1`
passes the field validation of the schema, and its counter is negative. -/
theorem negative_stats_counter_passes_validation :
    validate scenarioContext negativeViewsRecord = true ∧
    negativeViewsRecord.stats.profileViews = .val (-1) ∧
    ¬ NonNegativeCounter negativeViewsRecord.stats.profileViews := by
  refine ⟨validate_default scenarioContext _, rfl, ?_⟩
  rintro ⟨q, hq, hpos⟩
  have h1 : negativeViewsRecord.stats.profileViews = .val (-1) := rfl
  rw [h1] at hq
  cases hq
  norm_num at hpos

/-- C15, amended. The schema declares no validator on the four `stats` counters: the field
validation of a record does not depend on its `stats`, so a record passes with any counter
values, negative ones included, exactly when it passes with its own; the default record passes
and has all four counters equal to 0. -/
theorem validation_does_not_constrain_stats (ctx : SchemaContext) (r : JobSeeker) (s : Stats)
    (oid : ObjectId) :
    statsValidators = [] ∧
    validateStats s = true ∧
    validate ctx (r.withStats s) = validate ctx r ∧
    validate ctx (JobSeeker.default oid) = true ∧
    ((JobSeeker.default oid).stats.profileViews = .val 0 ∧
      (JobSeeker.default oid).stats.applicationsSubmitted = .val 0 ∧
      (JobSeeker.default oid).stats.interviewsScheduled = .val 0 ∧
      (JobSeeker.default oid).stats.jobsOffered = .val 0) := by
  refine ⟨rfl, rfl, ?_, validate_default ctx oid, ⟨rfl, rfl, rfl, rfl⟩⟩
  simp only [validate, JobSeeker.withStats, validateStats_true]

end LifeMate
